import Mathlib

/-!
Verification development for the RAP reader (`src/readers/rap.rs` of the
`jma` repository): a binary header parser plus a streaming run-length grid
decoder for gridded precipitation-analysis files.

Modelling conventions:
* Machine integers (`u8`, `u16`, `u32`, `u64`, `usize`) are modelled as `Nat`.
  Where the Rust code performs arithmetic that can wrap (the release-mode
  semantics of `u32` coordinate updates in `RapValueIterator::next`), the
  model applies an explicit `% 2^32` (see `u32add` / `u32sub` / `u16add`).
* A `BufReader<File>` is modelled as the list of the file's bytes together
  with the read position.  `RapValueIterator` keeps its byte source as the
  suffix of the file starting at the compressed data, and its `read_bytes`
  counter doubles as the read cursor (the Rust code advances the reader and
  `read_bytes` in lockstep, one byte per `read_run_length_byte` call).
* The two iterator helper methods `read_run_length_byte` and
  `expand_run_length` mutate only the `read_bytes` field of the iterator, so
  the embedding passes that single field explicitly and returns its new value.
* Fallible operations return `Except RapReaderError`.  A Rust slice-indexing
  panic (possible in `expand_run_length` for an out-of-range level index) is
  a distinct outcome from a returned error, so the token expansion results
  live in `RunOutcome`, which has a dedicated `panicked` constructor.
* Rust `String`s are modelled as their byte lists; `String::from_utf8` is
  modelled by an explicit UTF-8 validity check, and `str::trim_end` by
  trimming trailing ASCII whitespace bytes.
* `f64` never enters the model: `LocationValue.latitude` / `.longitude` keep
  the fixed-point microdegree integers that the Rust code divides by 10^6
  when building its `f64` fields (that division is injective on the stored
  `u32` values, so no information is lost).
-/

namespace JmaRap

/-- Modulus of `u32` arithmetic. -/
def U32 : Nat := 4294967296

/-- Modulus of `u16` arithmetic. -/
def U16 : Nat := 65536

/-- Wrapping `u32` addition (release-mode Rust `+` on `u32`). -/
def u32add (a b : Nat) : Nat := (a + b) % U32

/-- Wrapping `u32` subtraction (release-mode Rust `-` on `u32`). -/
def u32sub (a b : Nat) : Nat := (a + (U32 - b % U32)) % U32

/-- Wrapping `u16` addition (release-mode Rust `+` on `u16`). -/
def u16add (a b : Nat) : Nat := (a + b) % U16

/-- `time::PrimitiveDateTime` restricted to what the reader stores: minute
resolution, seconds fixed at 0 (`read_date_time` always passes 0 seconds). -/
structure PDateTime where
  year : Nat
  month : Nat
  day : Nat
  hour : Nat
  minute : Nat
deriving DecidableEq

/-- `RapReaderError` (the library's error enum).  Error message payloads are
kept as plain strings; their exact text is not part of any claim. -/
inductive RapReaderError where
  | Unexpected : String → RapReaderError
  | Open : String → RapReaderError
  | ObservationIntervalUnsupported : Nat → RapReaderError
  | MapTypeUnsupported : Nat → RapReaderError
  | CompressionMethodUnsupported : Nat → RapReaderError
  | DataDoesNotRecorded : PDateTime → RapReaderError
deriving DecidableEq

/-- One entry of the level-repetition table (`LevelRepetition`). -/
structure LevelRepetition where
  level : Nat
  repetition : Nat
deriving DecidableEq

/-- A decoded run-length token (`ExpandedValue`). -/
structure ExpandedValue where
  value : Nat
  number_of_repetitions : Nat
deriving DecidableEq

/-- Outcome of running a piece of Rust code that can return normally, return
an error, or abort the process with a panic (slice index out of bounds). -/
inductive RunOutcome (α : Type) where
  | panicked : RunOutcome α
  | err : RapReaderError → RunOutcome α
  | ok : α → RunOutcome α
deriving DecidableEq

/-- The decoder's output unit (`LocationValue`), with coordinates kept as the
fixed-point microdegree integers (see the module docstring). -/
structure LocationValue where
  latitude : Nat
  longitude : Nat
  value : Option Nat
deriving DecidableEq

/-- The streaming grid decoder state (`RapValueIterator`).  `data` is the
byte suffix of the file starting at the first compressed data byte (the Rust
reader is seeked there before `RapValueIterator::new`), and `read_bytes` is
both the consumed-byte counter and the cursor into `data`. -/
structure RapValueIterator where
  data : List Nat
  compressed_data_bytes : Nat
  min_longitude : Nat
  number_of_h_grids : Nat
  grid_height : Nat
  grid_width : Nat
  value_by_levels : List Nat
  level_repetitions : List LevelRepetition
  read_bytes : Nat
  current_latitude : Nat
  current_longitude : Nat
  h_moved_times : Nat
  current_value : Option Nat
  number_of_repetitions : Nat
deriving DecidableEq

/-- `RapValueIterator::new`. -/
def RapValueIterator.new (data : List Nat) (compressed_data_bytes : Nat)
    (max_latitude min_longitude : Nat) (number_of_h_grids : Nat)
    (grid_height grid_width : Nat) (value_by_levels : List Nat)
    (level_repetitions : List LevelRepetition) : RapValueIterator where
  data := data
  compressed_data_bytes := compressed_data_bytes
  min_longitude := min_longitude
  number_of_h_grids := number_of_h_grids
  grid_height := grid_height
  grid_width := grid_width
  value_by_levels := value_by_levels
  level_repetitions := level_repetitions
  read_bytes := 0
  current_latitude := max_latitude
  current_longitude := min_longitude
  h_moved_times := 0
  current_value := none
  number_of_repetitions := 0

/-- `RapValueIterator::read_run_length_byte`: read one byte, incrementing
`read_bytes` on success (on a failed read the counter is not incremented,
matching the Rust `?` before `self.read_bytes += 1`).  Only the `read_bytes`
field is mutated, so it is threaded explicitly as `rb`. -/
def read_run_length_byte (s : RapValueIterator) (rb : Nat) : RunOutcome Nat × Nat :=
  match s.data[rb]? with
  | some b => (.ok b, rb + 1)
  | none => (.err (.Unexpected "failed to read the data part"), rb)

/-- `RapValueIterator::expand_run_length`: decode one run-length token.  The
four slice lookups (`level_repetitions[buf]`, `value_by_levels[..]`) panic in
Rust when the index is out of bounds; the model returns `.panicked` there. -/
def expand_run_length (s : RapValueIterator) (rb : Nat) : RunOutcome ExpandedValue × Nat :=
  match read_run_length_byte s rb with
  | (.err e, rb1) => (.err e, rb1)
  | (.panicked, rb1) => (.panicked, rb1)
  | (.ok buf, rb1) =>
    if buf &&& 0x80 = 0 then
      -- run-length compression via the level-repetition table (a)
      match s.level_repetitions[buf]? with
      | none => (.panicked, rb1)
      | some lr =>
        match s.value_by_levels[lr.level]? with
        | none => (.panicked, rb1)
        | some v => (.ok ⟨v, lr.repetition + 2⟩, rb1)
    else if buf &&& 0xE0 = 0xC0 then
      -- run-length compression without the level-repetition table (b)
      match s.value_by_levels[buf &&& 0x1F]? with
      | none => (.panicked, rb1)
      | some v =>
        match read_run_length_byte s rb1 with
        | (.err e, rb2) => (.err e, rb2)
        | (.panicked, rb2) => (.panicked, rb2)
        | (.ok r, rb2) => (.ok ⟨v, r + 2⟩, rb2)
    else if buf &&& 0xC0 = 0x80 then
      -- frequent single level value (c)
      match s.value_by_levels[buf &&& 0x3F]? with
      | none => (.panicked, rb1)
      | some v => (.ok ⟨v, 1⟩, rb1)
    else if buf = 0xFE then
      -- rare single level value (d)
      match read_run_length_byte s rb1 with
      | (.err e, rb2) => (.err e, rb2)
      | (.panicked, rb2) => (.panicked, rb2)
      | (.ok level, rb2) =>
        match s.value_by_levels[level]? with
        | none => (.panicked, rb2)
        | some v => (.ok ⟨v, 1⟩, rb2)
    else
      (.err (.Unexpected "unrecognized byte in the data part"), rb1)

/-- The grid-move block at the end of `RapValueIterator::next`: advance the
longitude by one grid width; when the row is complete move one grid south and
back to the west edge. -/
def moveToNextGrid (s : RapValueIterator) : RapValueIterator :=
  let s2 := { s with current_longitude := u32add s.current_longitude s.grid_width,
                     h_moved_times := u16add s.h_moved_times 1 }
  if s2.number_of_h_grids ≤ s2.h_moved_times then
    { s2 with current_latitude := u32sub s2.current_latitude s2.grid_height,
              current_longitude := s2.min_longitude,
              h_moved_times := 0 }
  else s2

/-- `<RapValueIterator as Iterator>::next`.  Returns the yielded item (`none`
when the sequence is finished) together with the iterator state after the
call.  A `.panicked` item marks the pull on which the Rust process would
abort with an index panic. -/
def rapNext (s : RapValueIterator) : Option (RunOutcome LocationValue) × RapValueIterator :=
  -- finished: repetition count 0 and the whole compressed data consumed
  if s.number_of_repetitions = 0 ∧ s.compressed_data_bytes ≤ s.read_bytes then
    (none, s)
  else
    let fetched : RunOutcome Unit × RapValueIterator :=
      if s.number_of_repetitions = 0 then
        match expand_run_length s s.read_bytes with
        | (.ok ev, rb) =>
          (.ok (), { s with read_bytes := rb,
                            current_value := if ev.value < 65535 then some ev.value else none,
                            number_of_repetitions := ev.number_of_repetitions })
        | (.err e, rb) => (.err e, { s with read_bytes := rb })
        | (.panicked, rb) => (.panicked, { s with read_bytes := rb })
      else (.ok (), s)
    match fetched with
    | (.err e, s1) => (some (.err e), s1)
    | (.panicked, s1) => (some .panicked, s1)
    | (.ok _, s1) =>
      let result := LocationValue.mk s1.current_latitude s1.current_longitude s1.current_value
      let s3 := moveToNextGrid s1
      (some (.ok result), { s3 with number_of_repetitions := s3.number_of_repetitions - 1 })

/-- Pull the iterator `n` times, collecting the yielded items; stops early
when the iterator reports the end of the sequence. -/
def rapRunN : Nat → RapValueIterator → List (RunOutcome LocationValue) × RapValueIterator
  | 0, s => ([], s)
  | n + 1, s =>
    match rapNext s with
    | (none, s1) => ([], s1)
    | (some it, s1) =>
      let rest := rapRunN n s1
      (it :: rest.1, rest.2)

/-- Pull the iterator until it reports the end of the sequence, collecting the
yielded items; `none` when `fuel` pulls were not enough to reach the end. -/
def rapRunAll : Nat → RapValueIterator → Option (List (RunOutcome LocationValue))
  | 0, _ => none
  | fuel + 1, s =>
    match rapNext s with
    | (none, _) => some []
    | (some it, s1) => (rapRunAll fuel s1).map (fun rest => it :: rest)

/-- The successfully decoded cells among the yielded items. -/
def okCells (l : List (RunOutcome LocationValue)) : List LocationValue :=
  l.filterMap fun it =>
    match it with
    | .ok v => some v
    | _ => none

/-- Number of successfully decoded cells among the yielded items. -/
def okCount (l : List (RunOutcome LocationValue)) : Nat := (okCells l).length

/-- Total repeat count encoded by the token stream: repeatedly decode tokens
from byte position `rb` while the byte budget is not exhausted, summing their
repeat counts.  `none` when decoding fails, panics, or `fuel` runs out. -/
def tokenRepSum : Nat → RapValueIterator → Nat → Option Nat
  | 0, _, _ => none
  | fuel + 1, s, rb =>
    if s.compressed_data_bytes ≤ rb then some 0
    else
      match expand_run_length s rb with
      | (.ok ev, rb1) => (tokenRepSum fuel s rb1).map (fun n => ev.number_of_repetitions + n)
      | _ => none

/-! ## Header parser (`RapReader::new` and the `read_*_part` functions) -/

/-- A `BufReader<File>` over an in-memory copy of the file: the byte list and
the current read position. -/
structure ByteReader where
  file : List Nat
  pos : Nat
deriving DecidableEq

/-- `Read::read_exact` over `ByteReader`: all-or-nothing read of `n` bytes. -/
def readExact (r : ByteReader) (n : Nat) : Except RapReaderError (List Nat × ByteReader) :=
  if r.pos + n ≤ r.file.length then
    .ok ((r.file.drop r.pos).take n, ⟨r.file, r.pos + n⟩)
  else
    .error (.Unexpected "failed to read bytes from the file")

/-- `Seek::seek(SeekFrom::Current(n))` for the nonnegative offsets the reader
uses (seeking past the end of the file succeeds; only later reads fail). -/
def seekCur (r : ByteReader) (n : Nat) : ByteReader := ⟨r.file, r.pos + n⟩

/-- `Seek::seek(SeekFrom::Start(n))`. -/
def seekStart (r : ByteReader) (n : Nat) : ByteReader := ⟨r.file, n⟩

/-- `Seek::stream_position`. -/
def streamPosition (r : ByteReader) : Nat := r.pos

/-- Little-endian value of a byte list (`from_le_bytes`). -/
def leValue : List Nat → Nat
  | [] => 0
  | b :: rest => b % 256 + 256 * leValue rest

/-- The common body of the `read_number!`-generated readers (`read_u8`,
`read_u16`, `read_u32`, `read_u64`): read `bytes` bytes and decode them as a
little-endian integer. -/
def readNumLE (r : ByteReader) (bytes : Nat) : Except RapReaderError (Nat × ByteReader) := do
  let (buf, r1) ← readExact r bytes
  .ok (leValue buf, r1)

/-- `read_u8`. -/
def read_u8 (r : ByteReader) : Except RapReaderError (Nat × ByteReader) := readNumLE r 1

/-- `read_u16`. -/
def read_u16 (r : ByteReader) : Except RapReaderError (Nat × ByteReader) := readNumLE r 2

/-- `read_u32`. -/
def read_u32 (r : ByteReader) : Except RapReaderError (Nat × ByteReader) := readNumLE r 4

/-- `read_u64`. -/
def read_u64 (r : ByteReader) : Except RapReaderError (Nat × ByteReader) := readNumLE r 8

/-- Helper for `utf8Valid`: is `b` a UTF-8 continuation byte in `[lo, hi]`? -/
def utf8Cont (lo hi b : Nat) : Bool := lo ≤ b ∧ b ≤ hi

/-- UTF-8 validity of a byte list, modelling `String::from_utf8` failure
(including the overlong-encoding and surrogate exclusions). -/
def utf8Valid : List Nat → Bool
  | [] => true
  | b :: rest =>
    if b < 0x80 then utf8Valid rest
    else if 0xC2 ≤ b ∧ b ≤ 0xDF then
      match rest with
      | c1 :: r1 => utf8Cont 0x80 0xBF c1 && utf8Valid r1
      | _ => false
    else if b = 0xE0 then
      match rest with
      | c1 :: c2 :: r1 => utf8Cont 0xA0 0xBF c1 && utf8Cont 0x80 0xBF c2 && utf8Valid r1
      | _ => false
    else if (0xE1 ≤ b ∧ b ≤ 0xEC) ∨ b = 0xEE ∨ b = 0xEF then
      match rest with
      | c1 :: c2 :: r1 => utf8Cont 0x80 0xBF c1 && utf8Cont 0x80 0xBF c2 && utf8Valid r1
      | _ => false
    else if b = 0xED then
      match rest with
      | c1 :: c2 :: r1 => utf8Cont 0x80 0x9F c1 && utf8Cont 0x80 0xBF c2 && utf8Valid r1
      | _ => false
    else if b = 0xF0 then
      match rest with
      | c1 :: c2 :: c3 :: r1 =>
        utf8Cont 0x90 0xBF c1 && utf8Cont 0x80 0xBF c2 && utf8Cont 0x80 0xBF c3 && utf8Valid r1
      | _ => false
    else if 0xF1 ≤ b ∧ b ≤ 0xF3 then
      match rest with
      | c1 :: c2 :: c3 :: r1 =>
        utf8Cont 0x80 0xBF c1 && utf8Cont 0x80 0xBF c2 && utf8Cont 0x80 0xBF c3 && utf8Valid r1
      | _ => false
    else if b = 0xF4 then
      match rest with
      | c1 :: c2 :: c3 :: r1 =>
        utf8Cont 0x80 0x8F c1 && utf8Cont 0x80 0xBF c2 && utf8Cont 0x80 0xBF c3 && utf8Valid r1
      | _ => false
    else false

/-- Trailing-whitespace bytes removed by the model of `str::trim_end` (ASCII
whitespace; the multi-byte Unicode whitespace characters are not trimmed by
this model — no claim depends on the trimmed string contents). -/
def isTrimmedWhitespace (b : Nat) : Bool := b = 0x20 ∨ (0x09 ≤ b ∧ b ≤ 0x0D)

/-- Model of `str::trim_end`. -/
def trimEnd (l : List Nat) : List Nat := (l.reverse.dropWhile isTrimmedWhitespace).reverse

/-- `read_str`: exact-length read, UTF-8 validation, right trim.  The string
is kept as its byte list. -/
def read_str (r : ByteReader) (bytes : Nat) : Except RapReaderError (List Nat × ByteReader) := do
  let (buf, r1) ← readExact r bytes
  if utf8Valid buf then
    .ok (trimEnd buf, r1)
  else
    .error (.Unexpected "bytes not convertible to a utf8 string")

/-- `time` crate date validation: leap years. -/
def isLeapYear (y : Nat) : Bool := y % 4 = 0 ∧ (y % 100 ≠ 0 ∨ y % 400 = 0)

/-- `time` crate date validation: days in a month. -/
def daysInMonth (y m : Nat) : Nat :=
  if m = 2 then (if isLeapYear y then 29 else 28)
  else if m = 4 ∨ m = 6 ∨ m = 9 ∨ m = 11 then 30
  else 31

/-- `Date::from_calendar_date` validity for a year read as `u16` (the `time`
crate accepts years up to 9999 without the large-dates feature). -/
def dateValid (y m d : Nat) : Bool := y ≤ 9999 ∧ 1 ≤ d ∧ d ≤ daysInMonth y m

/-- `read_date_time`: 16-bit year, then month/day/hour/minute bytes, with the
`Month::try_from`, `Date::from_calendar_date` and `Time::from_hms` checks in
the order the Rust code performs them. -/
def read_date_time (r0 : ByteReader) : Except RapReaderError (PDateTime × ByteReader) := do
  let (year, r1) ← read_u16 r0
  let (month, r2) ← read_u8 r1
  if ¬ (1 ≤ month ∧ month ≤ 12) then
    throw (.Unexpected "invalid month recorded in the file")
  let (day, r3) ← read_u8 r2
  let (hour, r4) ← read_u8 r3
  let (minute, r5) ← read_u8 r4
  if ¬ (dateValid year month day) then
    throw (.Unexpected "could not build a date from the recorded year month day")
  if ¬ (hour < 24 ∧ minute < 60) then
    throw (.Unexpected "could not build a time from the recorded hour minute")
  .ok (⟨year, month, day, hour, minute⟩, r5)

/-- `CommentPart` (strings kept as byte lists). -/
structure CommentPart where
  identifier : List Nat
  version : List Nat
  creator_comment : List Nat
deriving DecidableEq

/-- `read_comment_part`: 6+5+66 byte trimmed strings followed by the 3-byte
trailer that must be `0x0D 0x0A 0x00`. -/
def read_comment_part (r0 : ByteReader) : Except RapReaderError (CommentPart × ByteReader) := do
  let (identifier, r1) ← read_str r0 6
  let (version, r2) ← read_str r1 5
  let (comment, r3) ← read_str r2 66
  let (bytes, r4) ← readExact r3 3
  if bytes ≠ [0x0D, 0x0A, 0x00] then
    throw (.Unexpected "the comment trailer is not 0x0d 0x0a 0x00")
  .ok (⟨identifier, version, comment⟩, r4)

/-- `DataProperty`. -/
structure DataProperty where
  observation_date_time : PDateTime
  observation_element : Nat
  data_start_position : Nat
  compressed_data_size : Nat
  radar_operation_statuses : Nat
  number_of_amedas : Nat
deriving DecidableEq

/-- `ObservationTimes`. -/
inductive ObservationTimes where
  | times24 : ObservationTimes
  | times48 : ObservationTimes
deriving DecidableEq

/-- The numeric value of an `ObservationTimes` (its `as usize` cast). -/
def ObservationTimes.toNat : ObservationTimes → Nat
  | .times24 => 24
  | .times48 => 48

/-- `impl TryFrom<u32> for ObservationTimes`. -/
def ObservationTimes.tryFrom (value : Nat) : Except RapReaderError ObservationTimes :=
  if value = 24 then .ok .times24
  else if value = 48 then .ok .times48
  else .error (.ObservationIntervalUnsupported value)

/-- `DataIndexPart`. -/
structure DataIndexPart where
  number_of_data : ObservationTimes
  data_properties : List DataProperty
deriving DecidableEq

/-- One pass of the `read_data_index_part` loop body: read the entry fields,
then hop to the data record to capture the compressed size, the radar status
and the station count, and seek back. -/
def readDataIndexEntry (r0 : ByteReader) : Except RapReaderError (DataProperty × ByteReader) := do
  let (dt, r1) ← read_date_time r0
  let (elem, r2) ← read_u16 r1
  let r3 := seekCur r2 8
  let (startPos, r4) ← read_u32 r3
  let position := streamPosition r4
  let r5 := seekStart r4 startPos
  let (compSize, r6) ← read_u32 r5
  let r7 := seekCur r6 compSize
  let (radar, r8) ← read_u64 r7
  let (amedas, r9) ← read_u32 r8
  let r10 := seekStart r9 position
  .ok (⟨dt, elem, startPos, compSize, radar, amedas⟩, r10)

/-- The `read_data_index_part` loop over all entries. -/
def readEntries : Nat → ByteReader → Except RapReaderError (List DataProperty × ByteReader)
  | 0, r => .ok ([], r)
  | n + 1, r => do
    let (dp, r1) ← readDataIndexEntry r
    let (rest, r2) ← readEntries n r1
    .ok (dp :: rest, r2)

/-- `read_data_index_part`: 32-bit entry count validated through
`ObservationTimes::try_from`, then the per-entry loop. -/
def read_data_index_part (r0 : ByteReader) :
    Except RapReaderError (DataIndexPart × ByteReader) := do
  let (numberOfData, r1) ← read_u32 r0
  let times ← ObservationTimes.tryFrom numberOfData
  let (props, r2) ← readEntries times.toNat r1
  .ok (⟨times, props⟩, r2)

/-- `GridDefinitionPart`. -/
structure GridDefinitionPart where
  map_type : Nat
  start_grid_latitude : Nat
  start_grid_longitude : Nat
  grid_width : Nat
  grid_height : Nat
  number_of_h_grids : Nat
  number_of_v_grids : Nat
deriving DecidableEq

/-- `MAP_TYPE` (latitude/longitude grid). -/
def MAP_TYPE : Nat := 1

/-- `COMPRESSION_METHOD` (run-length coding). -/
def COMPRESSION_METHOD : Nat := 1

/-- `read_grid_definition_part`. -/
def read_grid_definition_part (r0 : ByteReader) :
    Except RapReaderError (GridDefinitionPart × ByteReader) := do
  let r1 := seekCur r0 2
  let (map_type, r2) ← read_u16 r1
  if map_type ≠ MAP_TYPE then
    throw (.MapTypeUnsupported map_type)
  let (start_grid_latitude, r3) ← read_u32 r2
  let (start_grid_longitude, r4) ← read_u32 r3
  let (grid_width, r5) ← read_u32 r4
  let (grid_height, r6) ← read_u32 r5
  let (number_of_h_grids, r7) ← read_u16 r6
  let (number_of_v_grids, r8) ← read_u16 r7
  let r9 := seekCur r8 16
  .ok (⟨map_type, start_grid_latitude, start_grid_longitude, grid_width, grid_height,
        number_of_h_grids, number_of_v_grids⟩, r9)

/-- `CompressionPart`. -/
structure CompressionPart where
  compression_method : Nat
  number_of_levels : Nat
  value_by_levels : List Nat
deriving DecidableEq

/-- The `read_compression_part` loop reading the per-level 16-bit values. -/
def readU16List : Nat → ByteReader → Except RapReaderError (List Nat × ByteReader)
  | 0, r => .ok ([], r)
  | n + 1, r => do
    let (v, r1) ← read_u16 r
    let (rest, r2) ← readU16List n r1
    .ok (v :: rest, r2)

/-- `read_compression_part`. -/
def read_compression_part (r0 : ByteReader) :
    Except RapReaderError (CompressionPart × ByteReader) := do
  let (compression_method, r1) ← read_u16 r0
  if compression_method ≠ COMPRESSION_METHOD then
    throw (.CompressionMethodUnsupported compression_method)
  let (number_of_levels, r2) ← read_u16 r1
  let (value_by_levels, r3) ← readU16List number_of_levels r2
  .ok (⟨compression_method, number_of_levels, value_by_levels⟩, r3)

/-- `LevelRepetitionsPart`. -/
structure LevelRepetitionsPart where
  number_of_level_repetitions : Nat
  level_repetitions : List LevelRepetition
deriving DecidableEq

/-- The `read_level_repetitions_part` loop reading the `(level, repetition)`
byte pairs. -/
def readLevelRepetitionList :
    Nat → ByteReader → Except RapReaderError (List LevelRepetition × ByteReader)
  | 0, r => .ok ([], r)
  | n + 1, r => do
    let (level, r1) ← read_u8 r
    let (repetition, r2) ← read_u8 r1
    let (rest, r3) ← readLevelRepetitionList n r2
    .ok (⟨level, repetition⟩ :: rest, r3)

/-- `read_level_repetitions_part`. -/
def read_level_repetitions_part (r0 : ByteReader) :
    Except RapReaderError (LevelRepetitionsPart × ByteReader) := do
  let (count, r1) ← read_u16 r0
  let (lrs, r2) ← readLevelRepetitionList count r1
  .ok (⟨count, lrs⟩, r2)

/-- `RapReader` (the parsed document; the stored `path` field is not part of
the model — the file bytes are passed explicitly where the Rust code reopens
the file). -/
structure RapReader where
  comment_part : CommentPart
  data_index_part : DataIndexPart
  grid_definition_part : GridDefinitionPart
  compression_part : CompressionPart
  level_repetitions_part : LevelRepetitionsPart
deriving DecidableEq

/-- `RapReader::new`: parse the five header parts strictly in file order. -/
def RapReader.new (file : List Nat) : Except RapReaderError RapReader := do
  let r0 : ByteReader := ⟨file, 0⟩
  let (comment_part, r1) ← read_comment_part r0
  let (data_index_part, r2) ← read_data_index_part r1
  let (grid_definition_part, r3) ← read_grid_definition_part r2
  let (compression_part, r4) ← read_compression_part r3
  let (level_repetitions_part, _r5) ← read_level_repetitions_part r4
  .ok ⟨comment_part, data_index_part, grid_definition_part, compression_part,
       level_repetitions_part⟩

/-- `RapReader::value_iterator`: look the timestamp up in the data index,
reopen the file, seek to the compressed data (start offset + 4, skipping the
stored compressed-size field) and build the iterator. -/
def RapReader.value_iterator (rr : RapReader) (file : List Nat) (dt : PDateTime) :
    Except RapReaderError RapValueIterator :=
  match rr.data_index_part.data_properties.find?
      (fun dp => decide (dp.observation_date_time = dt)) with
  | none => .error (.DataDoesNotRecorded dt)
  | some dp =>
    .ok (RapValueIterator.new (file.drop (dp.data_start_position + 4))
      dp.compressed_data_size rr.grid_definition_part.start_grid_latitude
      rr.grid_definition_part.start_grid_longitude rr.grid_definition_part.number_of_h_grids
      rr.grid_definition_part.grid_height rr.grid_definition_part.grid_width
      rr.compression_part.value_by_levels rr.level_repetitions_part.level_repetitions)

/-! ## A concrete RAP file

A complete, well-formed header whose single (duplicated) data record holds a
one-byte token stream.  All 24 index entries point at the same data record at
offset 616; the grid declares 2×2 cells while the compressed stream encodes
a single cell, exhibiting that the decoder never checks the yielded cell
count against the grid size. -/

/-- Comment block: three blank (space-filled) strings plus the correct
trailer. -/
def exCommentBlock : List Nat := List.replicate 77 0x20 ++ [0x0D, 0x0A, 0x00]

/-- One data-index entry: timestamp 2023-01-01 01:00, element 0, 8 reserved
bytes, data start offset 616. -/
def exIndexEntry : List Nat :=
  [0xE7, 0x07, 1, 1, 1, 0] ++ [0, 0] ++ List.replicate 8 0 ++ [0x68, 0x02, 0, 0]

/-- Grid definition: map type 1, northwest corner (20, 30) microdegrees,
cell width 3, cell height 4, 2×2 cells. -/
def exGridDef : List Nat :=
  [0, 0] ++ [1, 0] ++ [20, 0, 0, 0] ++ [30, 0, 0, 0] ++ [3, 0, 0, 0] ++ [4, 0, 0, 0] ++
    [2, 0] ++ [2, 0] ++ List.replicate 16 0

/-- Compression table: method 1, two levels with values 0 and 7. -/
def exCompression : List Nat := [1, 0] ++ [2, 0] ++ [0, 0] ++ [7, 0]

/-- Level-repetition table: a single entry (level 0, repetition code 0). -/
def exLevelReps : List Nat := [1, 0] ++ [0, 0]

/-- Data record at offset 616: compressed size 1, the single token `0x81`
(single common value, level 1), radar status 0, station count 0. -/
def exDataRecord : List Nat := [1, 0, 0, 0] ++ [0x81] ++ List.replicate 8 0 ++ [0, 0, 0, 0]

/-- The whole example file (633 bytes). -/
def exFile : List Nat :=
  exCommentBlock ++ [24, 0, 0, 0] ++ (List.replicate 24 exIndexEntry).flatten ++
    exGridDef ++ exCompression ++ exLevelReps ++ exDataRecord

/-- The timestamp recorded in the example file's index entries. -/
def exDt : PDateTime := ⟨2023, 1, 1, 1, 0⟩

/-- The decode session the example file produces for `exDt`: parse the
header, then create the value iterator. -/
def exSession : Option RapValueIterator :=
  match RapReader.new exFile with
  | .error _ => none
  | .ok doc =>
    match doc.value_iterator exFile exDt with
    | .error _ => none
    | .ok s => some s

/-- The full item sequence of the example session (5 pulls of fuel suffice). -/
def exOutcome : Option (List (RunOutcome LocationValue)) :=
  match exSession with
  | none => none
  | some s => rapRunAll 5 s

/-- `horizontalCount * verticalCount` of the example file's parsed document. -/
def exHV : Option Nat :=
  match RapReader.new exFile with
  | .error _ => none
  | .ok doc =>
    some (doc.grid_definition_part.number_of_h_grids *
      doc.grid_definition_part.number_of_v_grids)

/-! ## Structural lemmas about one iterator pull -/

@[simp] theorem moveToNextGrid_data (s : RapValueIterator) :
    (moveToNextGrid s).data = s.data := by
  simp only [moveToNextGrid]
  split <;> rfl

@[simp] theorem moveToNextGrid_compressed (s : RapValueIterator) :
    (moveToNextGrid s).compressed_data_bytes = s.compressed_data_bytes := by
  simp only [moveToNextGrid]
  split <;> rfl

@[simp] theorem moveToNextGrid_min_longitude (s : RapValueIterator) :
    (moveToNextGrid s).min_longitude = s.min_longitude := by
  simp only [moveToNextGrid]
  split <;> rfl

@[simp] theorem moveToNextGrid_h_grids (s : RapValueIterator) :
    (moveToNextGrid s).number_of_h_grids = s.number_of_h_grids := by
  simp only [moveToNextGrid]
  split <;> rfl

@[simp] theorem moveToNextGrid_grid_height (s : RapValueIterator) :
    (moveToNextGrid s).grid_height = s.grid_height := by
  simp only [moveToNextGrid]
  split <;> rfl

@[simp] theorem moveToNextGrid_grid_width (s : RapValueIterator) :
    (moveToNextGrid s).grid_width = s.grid_width := by
  simp only [moveToNextGrid]
  split <;> rfl

@[simp] theorem moveToNextGrid_value_by_levels (s : RapValueIterator) :
    (moveToNextGrid s).value_by_levels = s.value_by_levels := by
  simp only [moveToNextGrid]
  split <;> rfl

@[simp] theorem moveToNextGrid_level_repetitions (s : RapValueIterator) :
    (moveToNextGrid s).level_repetitions = s.level_repetitions := by
  simp only [moveToNextGrid]
  split <;> rfl

@[simp] theorem moveToNextGrid_read_bytes (s : RapValueIterator) :
    (moveToNextGrid s).read_bytes = s.read_bytes := by
  simp only [moveToNextGrid]
  split <;> rfl

@[simp] theorem moveToNextGrid_current_value (s : RapValueIterator) :
    (moveToNextGrid s).current_value = s.current_value := by
  simp only [moveToNextGrid]
  split <;> rfl

@[simp] theorem moveToNextGrid_reps (s : RapValueIterator) :
    (moveToNextGrid s).number_of_repetitions = s.number_of_repetitions := by
  simp only [moveToNextGrid]
  split <;> rfl

/-- A pull on a finished iterator (repetitions drained and byte budget
exhausted) yields nothing and does not change the state. -/
theorem rapNext_finished (s : RapValueIterator) (h0 : s.number_of_repetitions = 0)
    (hb : s.compressed_data_bytes ≤ s.read_bytes) : rapNext s = (none, s) := by
  simp [rapNext, h0, hb]

/-- A pull with a buffered repetition count yields the current value at the
current coordinates without reading any byte, moves one grid and decrements
the repetition count. -/
theorem rapNext_drain (s : RapValueIterator) (h : s.number_of_repetitions ≠ 0) :
    rapNext s = (some (.ok ⟨s.current_latitude, s.current_longitude, s.current_value⟩),
      { moveToNextGrid s with number_of_repetitions := s.number_of_repetitions - 1 }) := by
  simp [rapNext, h]

/-- A pull that fetches a token successfully yields the decoded value (with
the `0xFFFF` sentinel mapped to `none`) at the current coordinates. -/
theorem rapNext_fetch_ok (s : RapValueIterator) (ev : ExpandedValue) (rb : Nat)
    (h0 : s.number_of_repetitions = 0) (hb : s.read_bytes < s.compressed_data_bytes)
    (hexp : expand_run_length s s.read_bytes = (.ok ev, rb)) :
    rapNext s =
      (some (.ok ⟨s.current_latitude, s.current_longitude,
          if ev.value < 65535 then some ev.value else none⟩),
       { moveToNextGrid
           { s with read_bytes := rb,
                    current_value := if ev.value < 65535 then some ev.value else none,
                    number_of_repetitions := ev.number_of_repetitions } with
         number_of_repetitions := ev.number_of_repetitions - 1 }) := by
  have hnb : ¬ s.compressed_data_bytes ≤ s.read_bytes := Nat.not_le.mpr hb
  simp [rapNext, h0, hnb, hexp]

/-- A pull whose token fetch returns an error yields that error; only the
consumed-byte counter changes. -/
theorem rapNext_fetch_err (s : RapValueIterator) (e : RapReaderError) (rb : Nat)
    (h0 : s.number_of_repetitions = 0) (hb : s.read_bytes < s.compressed_data_bytes)
    (hexp : expand_run_length s s.read_bytes = (.err e, rb)) :
    rapNext s = (some (.err e), { s with read_bytes := rb }) := by
  have hnb : ¬ s.compressed_data_bytes ≤ s.read_bytes := Nat.not_le.mpr hb
  simp [rapNext, h0, hnb, hexp]

/-- A pull whose token fetch hits an out-of-range table index aborts the
process (panic). -/
theorem rapNext_fetch_panicked (s : RapValueIterator) (rb : Nat)
    (h0 : s.number_of_repetitions = 0) (hb : s.read_bytes < s.compressed_data_bytes)
    (hexp : expand_run_length s s.read_bytes = (.panicked, rb)) :
    rapNext s = (some .panicked, { s with read_bytes := rb }) := by
  have hnb : ¬ s.compressed_data_bytes ≤ s.read_bytes := Nat.not_le.mpr hb
  simp [rapNext, h0, hnb, hexp]

/-! ## Bit-pattern helpers for the token grammar -/

theorem and80_of_andE0 (b : Nat) (h : b &&& 0xE0 = 0xC0) : b &&& 0x80 = 0x80 := by
  have h2 : b &&& 0xE0 &&& 0x80 = 0x80 := by rw [h]; decide
  rwa [Nat.and_assoc, (by decide : (0xE0 : Nat) &&& 0x80 = 0x80)] at h2

theorem and80_of_andC0 (b : Nat) (h : b &&& 0xC0 = 0x80) : b &&& 0x80 = 0x80 := by
  have h2 : b &&& 0xC0 &&& 0x80 = 0x80 := by rw [h]; decide
  rwa [Nat.and_assoc, (by decide : (0xC0 : Nat) &&& 0x80 = 0x80)] at h2

theorem andC0_of_andE0 (b : Nat) (h : b &&& 0xE0 = 0xC0) : b &&& 0xC0 = 0xC0 := by
  have h2 : b &&& 0xE0 &&& 0xC0 = 0xC0 := by rw [h]; decide
  rwa [Nat.and_assoc, (by decide : (0xE0 : Nat) &&& 0xC0 = 0xC0)] at h2

/-! ## C4: the token grammar -/

/-- C4: token decoding.  An indexed-repeat token (`b & 0x80 == 0`) decodes to
repeat count `code + 2` from the level-repetition table; an explicit-repeat
token (`b & 0xE0 == 0xC0`, second byte `r`) decodes to repeat count `r + 2`;
a single-common-value token (`b & 0xC0 == 0x80`) and a single-rare-value
token (`b == 0xFE`) decode to repeat count 1; the cases are tried in this
priority order, and any other leading byte is a fatal `DecodeError`. -/
theorem C4_token_grammar (s : RapValueIterator) (rb b : Nat)
    (hbyte : s.data[rb]? = some b) :
    (b &&& 0x80 = 0 →
      ∀ lr, s.level_repetitions[b]? = some lr →
        ∀ v, s.value_by_levels[lr.level]? = some v →
          expand_run_length s rb = (.ok ⟨v, lr.repetition + 2⟩, rb + 1)) ∧
    (b &&& 0xE0 = 0xC0 →
      ∀ v, s.value_by_levels[b &&& 0x1F]? = some v →
        ∀ r, s.data[rb + 1]? = some r →
          expand_run_length s rb = (.ok ⟨v, r + 2⟩, rb + 1 + 1)) ∧
    (b &&& 0xC0 = 0x80 →
      ∀ v, s.value_by_levels[b &&& 0x3F]? = some v →
        expand_run_length s rb = (.ok ⟨v, 1⟩, rb + 1)) ∧
    (b = 0xFE →
      ∀ level, s.data[rb + 1]? = some level →
        ∀ v, s.value_by_levels[level]? = some v →
          expand_run_length s rb = (.ok ⟨v, 1⟩, rb + 1 + 1)) ∧
    (b &&& 0x80 ≠ 0 → b &&& 0xE0 ≠ 0xC0 → b &&& 0xC0 ≠ 0x80 → b ≠ 0xFE →
      expand_run_length s rb =
        (.err (.Unexpected "unrecognized byte in the data part"), rb + 1)) := by
  refine ⟨?_, ?_, ?_, ?_, ?_⟩
  · intro hcond lr hlr v hv
    simp [expand_run_length, read_run_length_byte, hbyte, hcond, hlr, hv]
  · intro hcond v hv r hr
    have h1 : ¬ b &&& 0x80 = 0 := by rw [and80_of_andE0 b hcond]; decide
    simp [expand_run_length, read_run_length_byte, hbyte, h1, hcond, hv, hr]
  · intro hcond v hv
    have h1 : ¬ b &&& 0x80 = 0 := by rw [and80_of_andC0 b hcond]; decide
    have h2 : ¬ b &&& 0xE0 = 0xC0 := by
      intro hc
      have h3 := andC0_of_andE0 b hc
      rw [hcond] at h3
      exact absurd h3 (by decide)
    simp [expand_run_length, read_run_length_byte, hbyte, h1, h2, hcond, hv]
  · intro hcond level hlevel v hv
    subst hcond
    simp [expand_run_length, read_run_length_byte, hbyte, hlevel, hv,
      (by decide : ¬ ((254 : Nat) &&& 224 = 192)), (by decide : ¬ ((254 : Nat) &&& 192 = 128))]
  · intro h1 h2 h3 h4
    simp [expand_run_length, read_run_length_byte, hbyte, h1, h2, h3, h4]

/-- The state used to exercise the token grammar: the token bytes of the
spec's worked scenario, with `level-repetition-table[5] = (2, 1)`,
`levelValues[1] = 7` and `levelValues[2] = 15`. -/
def c4State : RapValueIterator :=
  { data := [0x05, 0x81, 0xC2, 0x03],
    compressed_data_bytes := 4, min_longitude := 0, number_of_h_grids := 9,
    grid_height := 1, grid_width := 1,
    value_by_levels := [0, 7, 15],
    level_repetitions := [⟨0, 0⟩, ⟨0, 0⟩, ⟨0, 0⟩, ⟨0, 0⟩, ⟨0, 0⟩, ⟨2, 1⟩],
    read_bytes := 0, current_latitude := 100, current_longitude := 200,
    h_moved_times := 0, current_value := none, number_of_repetitions := 0 }

/-- Witness for C4 on the spec's worked scenario: `0x05` decodes to value 15
repeated 3 times, `0x81` to value 7 once, `0xC2 0x03` to value 15 repeated 5
times. -/
theorem C4_token_grammar_witness :
    expand_run_length c4State 0 = (.ok ⟨15, 3⟩, 1) ∧
    expand_run_length c4State 1 = (.ok ⟨7, 1⟩, 2) ∧
    expand_run_length c4State 2 = (.ok ⟨15, 5⟩, 4) := by
  refine ⟨?_, ?_, ?_⟩
  · exact (C4_token_grammar c4State 0 0x05 (by decide)).1 (by decide)
      ⟨2, 1⟩ (by decide) 15 (by decide)
  · exact (C4_token_grammar c4State 1 0x81 (by decide)).2.2.1 (by decide) 7 (by decide)
  · exact (C4_token_grammar c4State 2 0xC2 (by decide)).2.1 (by decide) 15 (by decide)
      3 (by decide)

/-! ## C5: termination and the byte budget -/

/-- C5: a pull yields nothing exactly when the repetition count is zero and
the consumed bytes have reached `compressedSize`; once the byte budget is
reached no further byte is consumed; and a buffered repetition count above
zero is still emitted as a cell (without consuming a byte). -/
theorem C5_byte_budget (s : RapValueIterator) :
    ((rapNext s).1 = none ↔
      (s.number_of_repetitions = 0 ∧ s.compressed_data_bytes ≤ s.read_bytes)) ∧
    (s.compressed_data_bytes ≤ s.read_bytes → (rapNext s).2.read_bytes = s.read_bytes) ∧
    (s.number_of_repetitions ≠ 0 →
      (rapNext s).1 =
        some (.ok ⟨s.current_latitude, s.current_longitude, s.current_value⟩) ∧
      (rapNext s).2.read_bytes = s.read_bytes) := by
  by_cases h0 : s.number_of_repetitions = 0
  · by_cases hb : s.compressed_data_bytes ≤ s.read_bytes
    · simp [rapNext_finished s h0 hb, h0, hb]
    · have hb2 : s.read_bytes < s.compressed_data_bytes := Nat.lt_of_not_le hb
      rcases hexp : expand_run_length s s.read_bytes with ⟨out, rb⟩
      cases out with
      | ok ev => simp [rapNext_fetch_ok s ev rb h0 hb2 hexp, h0, hb]
      | err e => simp [rapNext_fetch_err s e rb h0 hb2 hexp, h0, hb]
      | panicked => simp [rapNext_fetch_panicked s rb h0 hb2 hexp, h0, hb]
  · simp [rapNext_drain s h0, h0]

/-- A state with a buffered repetition count and an exhausted byte budget. -/
def c5State : RapValueIterator :=
  { data := [], compressed_data_bytes := 0, min_longitude := 200, number_of_h_grids := 9,
    grid_height := 1, grid_width := 1, value_by_levels := [7], level_repetitions := [],
    read_bytes := 0, current_latitude := 100, current_longitude := 200, h_moved_times := 0,
    current_value := some 7, number_of_repetitions := 2 }

/-- Witness for C5 at a concrete state with a buffered repetition count. -/
theorem C5_byte_budget_witness :
    (rapNext c5State).1 = some (.ok ⟨100, 200, some 7⟩) ∧
    (rapNext c5State).2.read_bytes = c5State.read_bytes := by
  exact ((C5_byte_budget c5State).2.2 (by decide))

/-! ## C6: the 0xFFFF sentinel -/

/-- C6: a decoded level value equal to the `0xFFFF` sentinel surfaces as an
absent measurement and a smaller one as a present measurement; moreover, from
any state whose buffered value is below the sentinel, no pull ever yields the
literal `0xFFFF` as a present measurement, and that property is preserved. -/
theorem C6_sentinel (s : RapValueIterator) :
    (∀ ev rb, s.number_of_repetitions = 0 → s.read_bytes < s.compressed_data_bytes →
      expand_run_length s s.read_bytes = (.ok ev, rb) →
      (ev.value = 65535 →
        (rapNext s).1 = some (.ok ⟨s.current_latitude, s.current_longitude, none⟩)) ∧
      (ev.value < 65535 →
        (rapNext s).1 =
          some (.ok ⟨s.current_latitude, s.current_longitude, some ev.value⟩))) ∧
    ((∀ v, s.current_value = some v → v < 65535) →
      (∀ c, (rapNext s).1 = some (.ok c) → ∀ v, c.value = some v → v < 65535) ∧
      (∀ v, (rapNext s).2.current_value = some v → v < 65535)) := by
  constructor
  · intro ev rb h0 hb hexp
    constructor
    · intro hsent
      simp [rapNext_fetch_ok s ev rb h0 hb hexp, hsent]
    · intro hlt
      simp [rapNext_fetch_ok s ev rb h0 hb hexp, hlt]
  · intro hinv
    by_cases h0 : s.number_of_repetitions = 0
    · by_cases hb : s.compressed_data_bytes ≤ s.read_bytes
      · constructor
        · intro c hc
          rw [rapNext_finished s h0 hb] at hc
          simp at hc
        · intro v hv
          rw [rapNext_finished s h0 hb] at hv
          exact hinv v hv
      · have hb2 : s.read_bytes < s.compressed_data_bytes := Nat.lt_of_not_le hb
        rcases hexp : expand_run_length s s.read_bytes with ⟨out, rb⟩
        cases out with
        | ok ev =>
          rw [rapNext_fetch_ok s ev rb h0 hb2 hexp]
          constructor
          · intro c hc v hv
            simp at hc
            rw [← hc] at hv
            simp at hv
            omega
          · intro v hv
            simp at hv
            omega
        | err e =>
          rw [rapNext_fetch_err s e rb h0 hb2 hexp]
          exact ⟨fun c hc => by simp at hc, fun v hv => hinv v hv⟩
        | panicked =>
          rw [rapNext_fetch_panicked s rb h0 hb2 hexp]
          exact ⟨fun c hc => by simp at hc, fun v hv => hinv v hv⟩
    · rw [rapNext_drain s h0]
      constructor
      · intro c hc v hv
        simp at hc
        rw [← hc] at hv
        exact hinv v hv
      · intro v hv
        simp at hv
        exact hinv v hv

/-- A state about to decode a single-common-value token whose level value is
the `0xFFFF` sentinel. -/
def c6State : RapValueIterator :=
  { data := [0x80], compressed_data_bytes := 1, min_longitude := 200,
    number_of_h_grids := 9, grid_height := 1, grid_width := 1,
    value_by_levels := [65535], level_repetitions := [],
    read_bytes := 0, current_latitude := 100, current_longitude := 200, h_moved_times := 0,
    current_value := none, number_of_repetitions := 0 }

/-- Witness for C6: a concrete fetch of a sentinel-valued level yields an
absent measurement. -/
theorem C6_sentinel_witness :
    (rapNext c6State).1 = some (.ok ⟨100, 200, none⟩) := by
  exact ((C6_sentinel c6State).1 ⟨65535, 1⟩ 1 (by decide) (by decide) (by decide)).1 (by decide)

/-! ## C2: out-of-range table indexes -/

/-- Does the token starting at byte position `rb` only use in-bounds table
indexes?  (`true` also when no complete token starts there: the lookups the
code never reaches cannot panic.) -/
def tokenIndexInBounds (s : RapValueIterator) (rb : Nat) : Bool :=
  match s.data[rb]? with
  | none => true
  | some b =>
    if b &&& 0x80 = 0 then
      match s.level_repetitions[b]? with
      | none => false
      | some lr => decide (lr.level < s.value_by_levels.length)
    else if b &&& 0xE0 = 0xC0 then decide (b &&& 0x1F < s.value_by_levels.length)
    else if b &&& 0xC0 = 0x80 then decide (b &&& 0x3F < s.value_by_levels.length)
    else if b = 0xFE then
      match s.data[rb + 1]? with
      | none => true
      | some level => decide (level < s.value_by_levels.length)
    else true

/-- A token whose level indexes are in bounds never takes the panic branch of
the table lookups. -/
theorem expand_no_panic (s : RapValueIterator) (rb : Nat)
    (h : tokenIndexInBounds s rb = true) :
    (expand_run_length s rb).1 ≠ RunOutcome.panicked := by
  cases hbyte : s.data[rb]? with
  | none => simp [expand_run_length, read_run_length_byte, hbyte]
  | some b =>
    simp only [tokenIndexInBounds, hbyte] at h
    by_cases h1 : b &&& 0x80 = 0
    · rw [if_pos h1] at h
      cases hlr : s.level_repetitions[b]? with
      | none => rw [hlr] at h; simp at h
      | some lr =>
        rw [hlr] at h
        simp at h
        cases hv : s.value_by_levels[lr.level]? with
        | none =>
          have := List.getElem?_eq_none_iff.mp hv
          omega
        | some v => simp [expand_run_length, read_run_length_byte, hbyte, h1, hlr, hv]
    · rw [if_neg h1] at h
      by_cases h2 : b &&& 0xE0 = 0xC0
      · rw [if_pos h2] at h
        simp at h
        cases hv : s.value_by_levels[b &&& 0x1F]? with
        | none =>
          have := List.getElem?_eq_none_iff.mp hv
          omega
        | some v =>
          cases hbyte2 : s.data[rb + 1]? with
          | none => simp [expand_run_length, read_run_length_byte, hbyte, h1, h2, hv, hbyte2]
          | some r => simp [expand_run_length, read_run_length_byte, hbyte, h1, h2, hv, hbyte2]
      · rw [if_neg h2] at h
        by_cases h3 : b &&& 0xC0 = 0x80
        · rw [if_pos h3] at h
          simp at h
          cases hv : s.value_by_levels[b &&& 0x3F]? with
          | none =>
            have := List.getElem?_eq_none_iff.mp hv
            omega
          | some v => simp [expand_run_length, read_run_length_byte, hbyte, h1, h2, h3, hv]
        · rw [if_neg h3] at h
          by_cases h4 : b = 0xFE
          · rw [if_pos h4] at h
            cases hbyte2 : s.data[rb + 1]? with
            | none =>
              simp [expand_run_length, read_run_length_byte, hbyte, h1, h2, h3, h4, hbyte2,
                (by decide : ¬ ((254 : Nat) &&& 224 = 192)),
                (by decide : ¬ ((254 : Nat) &&& 192 = 128))]
            | some level =>
              rw [hbyte2] at h
              simp at h
              cases hv : s.value_by_levels[level]? with
              | none =>
                have := List.getElem?_eq_none_iff.mp hv
                omega
              | some v =>
                simp [expand_run_length, read_run_length_byte, hbyte, h1, h2, h3, h4,
                  hbyte2, hv, (by decide : ¬ ((254 : Nat) &&& 224 = 192)),
                  (by decide : ¬ ((254 : Nat) &&& 192 = 128))]
          · simp [expand_run_length, read_run_length_byte, hbyte, h1, h2, h3, h4]

/-- C2 (amended): under the precondition that the next token's level indexes
are in bounds, the pull cannot hit the panic branch of the table lookups.
(The counterexample `C2_counterexample` shows that an out-of-bounds index
aborts the process with a slice-index panic instead of yielding a
`DecodeError`.) -/
theorem C2_inbounds_no_panic (s : RapValueIterator)
    (h : tokenIndexInBounds s s.read_bytes = true) :
    (rapNext s).1 ≠ some RunOutcome.panicked := by
  by_cases h0 : s.number_of_repetitions = 0
  · by_cases hb : s.compressed_data_bytes ≤ s.read_bytes
    · simp [rapNext_finished s h0 hb]
    · have hb2 : s.read_bytes < s.compressed_data_bytes := Nat.lt_of_not_le hb
      rcases hexp : expand_run_length s s.read_bytes with ⟨out, rb⟩
      cases out with
      | ok ev => simp [rapNext_fetch_ok s ev rb h0 hb2 hexp]
      | err e => simp [rapNext_fetch_err s e rb h0 hb2 hexp]
      | panicked =>
        have := expand_no_panic s s.read_bytes h
        rw [hexp] at this
        exact absurd rfl this
  · simp [rapNext_drain s h0]

/-- The decode-session state on which the claimed behaviour of C2 fails: the
token byte 0 is an indexed-repeat token, but the level-repetition table is
empty, so `level_repetitions[0]` panics. -/
def c2State : RapValueIterator :=
  { data := [0], compressed_data_bytes := 1, min_longitude := 0, number_of_h_grids := 1,
    grid_height := 0, grid_width := 0, value_by_levels := [], level_repetitions := [],
    read_bytes := 0, current_latitude := 0, current_longitude := 0, h_moved_times := 0,
    current_value := none, number_of_repetitions := 0 }

/-- C2 counterexample: on an out-of-bounds level index the next pull aborts
the process (slice-index panic) and does not yield a `DecodeError` value. -/
theorem C2_counterexample :
    (rapNext c2State).1 = some RunOutcome.panicked ∧
    ∀ e, (rapNext c2State).1 ≠ some (RunOutcome.err e) := by
  have h1 : (rapNext c2State).1 = some RunOutcome.panicked := by decide
  refine ⟨h1, fun e h => ?_⟩
  rw [h1] at h
  exact RunOutcome.noConfusion (Option.some.inj h)

/-- Witness for C2 (amended): an in-bounds indexed-repeat token does not
panic. -/
theorem C2_inbounds_no_panic_witness :
    (rapNext c4State).1 ≠ some RunOutcome.panicked := by
  exact C2_inbounds_no_panic c4State (by decide)

/-! ## C3: errors do not latch -/

/-- A pull yields `none` exactly on the finished condition; no error state is
remembered. -/
theorem rapNext_none_iff (s : RapValueIterator) :
    (rapNext s).1 = none ↔
      (s.number_of_repetitions = 0 ∧ s.compressed_data_bytes ≤ s.read_bytes) := by
  by_cases h0 : s.number_of_repetitions = 0
  · by_cases hb : s.compressed_data_bytes ≤ s.read_bytes
    · simp [rapNext_finished s h0 hb, h0, hb]
    · have hb2 : s.read_bytes < s.compressed_data_bytes := Nat.lt_of_not_le hb
      rcases hexp : expand_run_length s s.read_bytes with ⟨out, rb⟩
      cases out with
      | ok ev => simp [rapNext_fetch_ok s ev rb h0 hb2 hexp, hb]
      | err e => simp [rapNext_fetch_err s e rb h0 hb2 hexp, hb]
      | panicked => simp [rapNext_fetch_panicked s rb h0 hb2 hexp, hb]
  · simp [rapNext_drain s h0, h0]

/-- One-step unfolding of `rapRunN`. -/
theorem rapRunN_succ (n : Nat) (s : RapValueIterator) :
    rapRunN (n + 1) s =
      match rapNext s with
      | (none, s1) => ([], s1)
      | (some it, s1) => (it :: (rapRunN n s1).1, (rapRunN n s1).2) := rfl

/-- Pulling once more only appends items; items already yielded are kept. -/
theorem rapRunN_extend (n : Nat) (s : RapValueIterator) :
    ∃ t, (rapRunN (n + 1) s).1 = (rapRunN n s).1 ++ t := by
  induction n generalizing s with
  | zero => exact ⟨(rapRunN 1 s).1, (List.nil_append _).symm⟩
  | succ n ih =>
    rcases hnext : rapNext s with ⟨it, s1⟩
    cases it with
    | none =>
      refine ⟨[], ?_⟩
      rw [rapRunN_succ (n + 1) s, rapRunN_succ n s, hnext]
      simp
    | some it =>
      rcases ih s1 with ⟨t, ht⟩
      refine ⟨t, ?_⟩
      rw [rapRunN_succ (n + 1) s, rapRunN_succ n s, hnext]
      change it :: (rapRunN (n + 1) s1).1 = (it :: (rapRunN n s1).1) ++ t
      rw [ht]
      simp

/-- C3 (amended): items already yielded are never retracted (each further
pull only appends), but an error item does not exhaust the sequence: the
iterator state carries no error latch, so whenever the finished condition
(zero repetitions and exhausted byte budget) does not hold — in particular
right after a mid-stream error — the next pull yields a further item.
(The counterexample `C3_counterexample` shows a value item following an
error item.) -/
theorem C3_error_not_latched (s : RapValueIterator) :
    (∀ n, ∃ t, (rapRunN (n + 1) s).1 = (rapRunN n s).1 ++ t) ∧
    (¬ (s.number_of_repetitions = 0 ∧ s.compressed_data_bytes ≤ s.read_bytes) →
      (rapNext s).1 ≠ none) := by
  refine ⟨fun n => rapRunN_extend n s, fun hne hnone => ?_⟩
  exact hne ((rapNext_none_iff s).mp hnone)

/-- A decode session whose stream starts with the unrecognized byte `0xFF`
followed by a well-formed single-value token. -/
def c3State : RapValueIterator :=
  { data := [0xFF, 0x81], compressed_data_bytes := 2, min_longitude := 200,
    number_of_h_grids := 9, grid_height := 1, grid_width := 1,
    value_by_levels := [0, 7], level_repetitions := [],
    read_bytes := 0, current_latitude := 100, current_longitude := 200,
    h_moved_times := 0, current_value := none, number_of_repetitions := 0 }

/-- C3 counterexample: after the error item from the unrecognized byte, the
next pull yields a further (value) item — the sequence is not exhausted. -/
theorem C3_counterexample :
    (rapRunN 2 c3State).1 =
      [.err (.Unexpected "unrecognized byte in the data part"),
       .ok ⟨100, 200, some 7⟩] := by decide

/-- Witness for C3 (amended) at the state reached after the error pull. -/
theorem C3_error_not_latched_witness :
    (∃ t, (rapRunN 2 c3State).1 = (rapRunN 1 c3State).1 ++ t) ∧
    (rapNext ((rapRunN 1 c3State).2)).1 ≠ none := by
  exact ⟨(C3_error_not_latched c3State).1 1,
    (C3_error_not_latched ((rapRunN 1 c3State).2)).2 (by decide)⟩

/-! ## C1: number of cells yielded -/

/-- `expand_run_length` only reads the `data`, `value_by_levels` and
`level_repetitions` fields of the iterator. -/
theorem expand_congr (s t : RapValueIterator) (rb : Nat)
    (hdata : s.data = t.data) (hvals : s.value_by_levels = t.value_by_levels)
    (hlrs : s.level_repetitions = t.level_repetitions) :
    expand_run_length s rb = expand_run_length t rb := by
  simp only [expand_run_length, read_run_length_byte, hdata, hvals, hlrs]

/-- `tokenRepSum` additionally reads only `compressed_data_bytes`. -/
theorem tokenRepSum_congr (f : Nat) (s t : RapValueIterator)
    (hdata : s.data = t.data) (hvals : s.value_by_levels = t.value_by_levels)
    (hlrs : s.level_repetitions = t.level_repetitions)
    (hsize : s.compressed_data_bytes = t.compressed_data_bytes) :
    ∀ rb, tokenRepSum f s rb = tokenRepSum f t rb := by
  induction f with
  | zero => intro rb; rfl
  | succ f ih =>
    intro rb
    rw [tokenRepSum, tokenRepSum, hsize, expand_congr s t rb hdata hvals hlrs]
    split
    · rfl
    · rcases hexp : expand_run_length t rb with ⟨out, rb1⟩
      cases out <;> simp [ih]

/-- Every successfully decoded token has repeat count at least 1. -/
theorem expand_ok_reps_pos (s : RapValueIterator) (rb : Nat) (ev : ExpandedValue) (rb1 : Nat)
    (h : expand_run_length s rb = (.ok ev, rb1)) : 1 ≤ ev.number_of_repetitions := by
  unfold expand_run_length at h
  split at h
  · simp at h
  · simp at h
  · split at h
    · split at h
      · simp at h
      · split at h
        · simp at h
        · simp only [Prod.mk.injEq, RunOutcome.ok.injEq] at h
          obtain ⟨hev, -⟩ := h
          rw [← hev]
          show 1 ≤ _ + 2
          omega
    · split at h
      · split at h
        · simp at h
        · split at h
          · simp at h
          · simp at h
          · simp only [Prod.mk.injEq, RunOutcome.ok.injEq] at h
            obtain ⟨hev, -⟩ := h
            rw [← hev]
            show 1 ≤ _ + 2
            omega
      · split at h
        · split at h
          · simp at h
          · simp only [Prod.mk.injEq, RunOutcome.ok.injEq] at h
            obtain ⟨hev, -⟩ := h
            rw [← hev]
        · split at h
          · split at h
            · simp at h
            · simp at h
            · split at h
              · simp at h
              · simp only [Prod.mk.injEq, RunOutcome.ok.injEq] at h
                obtain ⟨hev, -⟩ := h
                rw [← hev]
          · simp at h

/-- Running the iterator to the end of the sequence yields exactly
`r + N` cells when `r` repetitions are buffered and the remaining token
stream encodes `N` further repetitions; every yielded item is a cell. -/
theorem tokenRepSum_run (f : Nat) :
    ∀ r s N, s.number_of_repetitions = r →
      tokenRepSum f s s.read_bytes = some N →
      ∃ g out, rapRunAll g s = some out ∧ okCount out = r + N ∧ out.length = r + N := by
  induction f with
  | zero =>
    intro r s N hr h
    simp [tokenRepSum] at h
  | succ f ihf =>
    intro r
    induction r with
    | zero =>
      intro s N hr h
      rw [tokenRepSum] at h
      split at h
      · rename_i hb
        injection h with h0
        subst h0
        refine ⟨1, [], ?_, by simp [okCount, okCells], by simp⟩
        simp [rapRunAll, rapNext_finished s hr hb]
      · rename_i hb
        have hb2 : s.read_bytes < s.compressed_data_bytes := Nat.lt_of_not_le hb
        rcases hexp : expand_run_length s s.read_bytes with ⟨out0, rb1⟩
        rw [hexp] at h
        cases out0 with
        | err e => simp at h
        | panicked => simp at h
        | ok ev =>
          rw [Option.map_eq_some'] at h
          obtain ⟨N1, hsum1, hN⟩ := h
          have hpos := expand_ok_reps_pos s s.read_bytes ev rb1 hexp
          obtain ⟨g, out, hrun, hcnt, hlen⟩ := ihf (ev.number_of_repetitions - 1)
            { moveToNextGrid
                { s with read_bytes := rb1,
                         current_value := if ev.value < 65535 then some ev.value else none,
                         number_of_repetitions := ev.number_of_repetitions } with
              number_of_repetitions := ev.number_of_repetitions - 1 }
            N1 (by simp)
            (by
              rw [show ({ moveToNextGrid
                  { s with read_bytes := rb1,
                           current_value := if ev.value < 65535 then some ev.value else none,
                           number_of_repetitions := ev.number_of_repetitions } with
                number_of_repetitions :=
                  ev.number_of_repetitions - 1 } : RapValueIterator).read_bytes = rb1
                from by simp]
              rw [tokenRepSum_congr f _ s (by simp) (by simp) (by simp) (by simp)]
              exact hsum1)
          refine ⟨g + 1,
            .ok ⟨s.current_latitude, s.current_longitude,
              if ev.value < 65535 then some ev.value else none⟩ :: out, ?_, ?_, ?_⟩
          · simp only [rapRunAll, rapNext_fetch_ok s ev rb1 hr hb2 hexp, hrun, Option.map_some']
          · simp only [okCount, okCells, List.filterMap_cons] at hcnt ⊢
            simp only [List.length_cons, hcnt]
            omega
          · simp only [List.length_cons, hlen]
            omega
    | succ r ihr =>
      intro s N hr h
      obtain ⟨g, out, hrun, hcnt, hlen⟩ := ihr
        { moveToNextGrid s with number_of_repetitions := s.number_of_repetitions - 1 }
        N (by simp [hr])
        (by
          rw [show ({ moveToNextGrid s with
              number_of_repetitions := s.number_of_repetitions - 1 } :
                RapValueIterator).read_bytes = s.read_bytes from by simp]
          rw [tokenRepSum_congr (f + 1) _ s (by simp) (by simp) (by simp) (by simp)]
          exact h)
      refine ⟨g + 1,
        .ok ⟨s.current_latitude, s.current_longitude, s.current_value⟩ :: out, ?_, ?_, ?_⟩
      · simp only [rapRunAll, rapNext_drain s (by omega), hrun, Option.map_some']
      · simp only [okCount, okCells, List.filterMap_cons] at hcnt ⊢
        simp only [List.length_cons, hcnt]
        omega
      · simp only [List.length_cons, hlen]
        omega

/-- C1 (amended): a decode session yields exactly the total repeat count
encoded by its token stream within the byte budget — the iterator never
consults `horizontalCount * verticalCount`, so the yielded cell count equals
`horizontalCount * verticalCount` exactly when the stream encodes that many
cells.  (The counterexample `C1_counterexample` is a successfully parsed
document whose session yields 1 cell although the grid declares 4.) -/
theorem C1_cell_count_amended (f : Nat) (s : RapValueIterator) (N : Nat)
    (h0 : s.number_of_repetitions = 0)
    (hsum : tokenRepSum f s s.read_bytes = some N) :
    ∃ g out, rapRunAll g s = some out ∧ okCount out = N ∧ out.length = N := by
  simpa using tokenRepSum_run f 0 s N h0 hsum

set_option maxRecDepth 10000

/-- C1 counterexample: the example file parses successfully, its grid
declares 2×2 = 4 cells, yet the decode session for its recorded timestamp
ends after yielding exactly one cell. -/
theorem C1_counterexample :
    exOutcome = some [RunOutcome.ok ⟨20, 30, some 7⟩] ∧ exHV = some 4 ∧
    okCount [RunOutcome.ok ⟨20, 30, some 7⟩] = 1 := by
  refine ⟨by decide, by decide, by decide⟩

/-- A session whose two-byte stream is one explicit-repeat token encoding
five cells. -/
def c1State : RapValueIterator :=
  { data := [0xC2, 0x03], compressed_data_bytes := 2, min_longitude := 200,
    number_of_h_grids := 9, grid_height := 1, grid_width := 1,
    value_by_levels := [0, 7, 15], level_repetitions := [],
    read_bytes := 0, current_latitude := 100, current_longitude := 200,
    h_moved_times := 0, current_value := none, number_of_repetitions := 0 }

/-- Witness for C1 (amended): five-cell stream yields exactly five cells. -/
theorem C1_cell_count_amended_witness :
    ∃ g out, rapRunAll g c1State = some out ∧ okCount out = 5 ∧ out.length = 5 := by
  exact C1_cell_count_amended 2 c1State 5 rfl (by decide)

/-! ## C7 / C10: geographic stepping -/

/-- The pure coordinate transformation performed by `moveToNextGrid`, on the
triple (latitude, longitude, row counter). -/
def stepCoords (minLon h H W lat lon hm : Nat) : Nat × Nat × Nat :=
  let lon2 := u32add lon W
  let hm2 := u16add hm 1
  if h ≤ hm2 then (u32sub lat H, minLon, 0) else (lat, lon2, hm2)

theorem moveToNextGrid_coords (s : RapValueIterator) :
    ((moveToNextGrid s).current_latitude, (moveToNextGrid s).current_longitude,
      (moveToNextGrid s).h_moved_times) =
      stepCoords s.min_longitude s.number_of_h_grids s.grid_height s.grid_width
        s.current_latitude s.current_longitude s.h_moved_times := by
  by_cases hc : s.number_of_h_grids ≤ u16add s.h_moved_times 1
  · simp [moveToNextGrid, stepCoords, hc]
  · simp [moveToNextGrid, stepCoords, hc]

@[simp] theorem okCells_nil : okCells [] = [] := rfl

@[simp] theorem okCells_cons_ok (c : LocationValue) (l : List (RunOutcome LocationValue)) :
    okCells (.ok c :: l) = c :: okCells l := by simp [okCells]

@[simp] theorem okCells_cons_err (e : RapReaderError) (l : List (RunOutcome LocationValue)) :
    okCells (.err e :: l) = okCells l := by simp [okCells]

@[simp] theorem okCells_cons_panicked (l : List (RunOutcome LocationValue)) :
    okCells (.panicked :: l) = okCells l := by simp [okCells]

/-- The configuration fields of the iterator are never written by a pull. -/
theorem rapNext_config (s : RapValueIterator) :
    (rapNext s).2.min_longitude = s.min_longitude ∧
    (rapNext s).2.number_of_h_grids = s.number_of_h_grids ∧
    (rapNext s).2.grid_height = s.grid_height ∧
    (rapNext s).2.grid_width = s.grid_width := by
  by_cases h0 : s.number_of_repetitions = 0
  · by_cases hb : s.compressed_data_bytes ≤ s.read_bytes
    · simp [rapNext_finished s h0 hb]
    · have hb2 : s.read_bytes < s.compressed_data_bytes := Nat.lt_of_not_le hb
      rcases hexp : expand_run_length s s.read_bytes with ⟨out, rb⟩
      cases out with
      | ok ev => simp [rapNext_fetch_ok s ev rb h0 hb2 hexp]
      | err e => simp [rapNext_fetch_err s e rb h0 hb2 hexp]
      | panicked => simp [rapNext_fetch_panicked s rb h0 hb2 hexp]
  · simp [rapNext_drain s h0]

/-- A pull that yields a cell emits the current coordinates and then moves
the position by `stepCoords`. -/
theorem rapNext_ok_cell (s : RapValueIterator) (c : LocationValue)
    (h : (rapNext s).1 = some (.ok c)) :
    c.latitude = s.current_latitude ∧ c.longitude = s.current_longitude ∧
    ((rapNext s).2.current_latitude, (rapNext s).2.current_longitude,
      (rapNext s).2.h_moved_times) =
      stepCoords s.min_longitude s.number_of_h_grids s.grid_height s.grid_width
        s.current_latitude s.current_longitude s.h_moved_times := by
  by_cases h0 : s.number_of_repetitions = 0
  · by_cases hb : s.compressed_data_bytes ≤ s.read_bytes
    · rw [rapNext_finished s h0 hb] at h
      simp at h
    · have hb2 : s.read_bytes < s.compressed_data_bytes := Nat.lt_of_not_le hb
      rcases hexp : expand_run_length s s.read_bytes with ⟨out, rb⟩
      cases out with
      | ok ev =>
        rw [rapNext_fetch_ok s ev rb h0 hb2 hexp] at h ⊢
        simp only [Option.some.injEq, RunOutcome.ok.injEq] at h
        subst h
        refine ⟨rfl, rfl, ?_⟩
        rw [moveToNextGrid_coords]
      | err e =>
        rw [rapNext_fetch_err s e rb h0 hb2 hexp] at h
        simp at h
      | panicked =>
        rw [rapNext_fetch_panicked s rb h0 hb2 hexp] at h
        simp at h
  · rw [rapNext_drain s h0] at h ⊢
    simp only [Option.some.injEq, RunOutcome.ok.injEq] at h
    subst h
    refine ⟨rfl, rfl, ?_⟩
    rw [moveToNextGrid_coords]

/-- A pull that yields no cell leaves the position unchanged. -/
theorem rapNext_not_ok_geo (s : RapValueIterator)
    (h : ∀ c, (rapNext s).1 ≠ some (.ok c)) :
    (rapNext s).2.current_latitude = s.current_latitude ∧
    (rapNext s).2.current_longitude = s.current_longitude ∧
    (rapNext s).2.h_moved_times = s.h_moved_times := by
  by_cases h0 : s.number_of_repetitions = 0
  · by_cases hb : s.compressed_data_bytes ≤ s.read_bytes
    · simp [rapNext_finished s h0 hb]
    · have hb2 : s.read_bytes < s.compressed_data_bytes := Nat.lt_of_not_le hb
      rcases hexp : expand_run_length s s.read_bytes with ⟨out, rb⟩
      cases out with
      | ok ev =>
        exfalso
        exact h _ (by rw [rapNext_fetch_ok s ev rb h0 hb2 hexp])
      | err e => simp [rapNext_fetch_err s e rb h0 hb2 hexp]
      | panicked => simp [rapNext_fetch_panicked s rb h0 hb2 hexp]
  · exfalso
    exact h _ (by rw [rapNext_drain s h0])

/-- A pull that reports the end of the sequence leaves the state unchanged. -/
theorem rapNext_none_state (s : RapValueIterator) (h : (rapNext s).1 = none) :
    (rapNext s).2 = s := by
  obtain ⟨h0, hb⟩ := (rapNext_none_iff s).mp h
  rw [rapNext_finished s h0 hb]

/-- `u32` subtraction does not wrap when the subtrahend fits. -/
theorem u32sub_exact (a b : Nat) (hb : b ≤ a) (ha : a < U32) : u32sub a b = a - b := by
  unfold u32sub U32
  unfold U32 at ha
  have hbm : b % 4294967296 = b := Nat.mod_eq_of_lt (by omega)
  rw [hbm]
  omega

/-- Row/column bookkeeping at a row wrap. -/
theorem rowcol_step_wrap (h k : Nat) (hh : 1 ≤ h) (hwrap : k % h + 1 = h) :
    (k + 1) / h = k / h + 1 ∧ (k + 1) % h = 0 := by
  have hqr := Nat.div_add_mod k h
  have hk1 : k + 1 = (k / h + 1) * h := by
    rw [Nat.succ_mul, Nat.mul_comm]
    omega
  constructor
  · rw [hk1, Nat.mul_div_cancel _ hh]
  · rw [hk1, Nat.mul_mod_left]

/-- Row/column bookkeeping inside a row. -/
theorem rowcol_step_nowrap (h k : Nat) (hh : 1 ≤ h) (hnw : k % h + 1 ≠ h) :
    (k + 1) / h = k / h ∧ (k + 1) % h = k % h + 1 := by
  have hqr := Nat.div_add_mod k h
  have hr : k % h < h := Nat.mod_lt _ hh
  have hlt : k % h + 1 < h := by omega
  have hk1 : k + 1 = k % h + 1 + h * (k / h) := by omega
  constructor
  · rw [hk1, Nat.add_mul_div_left _ _ hh, Nat.div_eq_of_lt hlt, Nat.zero_add]
  · rw [hk1, Nat.add_mul_mod_self_left, Nat.mod_eq_of_lt hlt]

/-- Under the no-overflow preconditions, the coordinate update of one emitted
cell is the exact row-major step from cell `k` to cell `k + 1`. -/
theorem stepCoords_formula (lat0 lon0 H W h v k : Nat)
    (hh : 1 ≤ h) (hh16 : h ≤ 65535) (hlat : v * H ≤ lat0) (hlat32 : lat0 < U32)
    (hlon : lon0 + h * W < U32) (hk : k + 1 ≤ h * v) :
    stepCoords lon0 h H W (lat0 - k / h * H) (lon0 + k % h * W) (k % h) =
      (lat0 - (k + 1) / h * H, lon0 + (k + 1) % h * W, (k + 1) % h) := by
  have hr : k % h < h := Nat.mod_lt _ hh
  by_cases hwrap : k % h + 1 = h
  · obtain ⟨hdiv, hmod⟩ := rowcol_step_wrap h k hh hwrap
    have hqr := Nat.div_add_mod k h
    have hk1 : k + 1 = (k / h + 1) * h := by
      rw [Nat.succ_mul, Nat.mul_comm]
      omega
    have hqv2 : k / h + 1 ≤ v := by
      refine Nat.le_of_mul_le_mul_right ?_ (show 0 < h by omega)
      calc (k / h + 1) * h = k + 1 := hk1.symm
        _ ≤ h * v := hk
        _ = v * h := Nat.mul_comm h v
    have hH : (k / h + 1) * H ≤ lat0 := by
      calc (k / h + 1) * H ≤ v * H := Nat.mul_le_mul_right H hqv2
        _ ≤ lat0 := hlat
    have hH2 : k / h * H + H ≤ lat0 := by
      rw [← Nat.succ_mul]
      exact hH
    have hcond : h ≤ u16add (k % h) 1 := by
      unfold u16add U16
      rw [Nat.mod_eq_of_lt (by omega)]
      omega
    have e1 : u32sub (lat0 - k / h * H) H = lat0 - (k / h + 1) * H := by
      rw [u32sub_exact _ _ (by omega) (by omega), Nat.succ_mul]
      omega
    simp only [stepCoords]
    rw [if_pos hcond, hdiv, hmod, e1]
    simp
  · obtain ⟨hdiv, hmod⟩ := rowcol_step_nowrap h k hh hwrap
    have hcond : ¬ (h ≤ u16add (k % h) 1) := by
      unfold u16add U16
      rw [Nat.mod_eq_of_lt (by omega)]
      omega
    have e2 : u32add (lon0 + k % h * W) W = lon0 + (k % h + 1) * W := by
      have hle : (k % h + 1) * W ≤ h * W := Nat.mul_le_mul_right W (by omega)
      unfold u32add U32
      unfold U32 at hlon
      rw [Nat.succ_mul] at hle ⊢
      omega
    have e3 : u16add (k % h) 1 = k % h + 1 := by
      unfold u16add U16
      exact Nat.mod_eq_of_lt (by omega)
    simp only [stepCoords]
    rw [if_neg hcond, hdiv, hmod, e2, e3]

/-- The first cell a run yields carries the state's current coordinates
(error items never move the position). -/
theorem first_cell_coords : ∀ (n : Nat) (s : RapValueIterator) (c : LocationValue)
    (rest : List LocationValue), okCells (rapRunN n s).1 = c :: rest →
    c.latitude = s.current_latitude ∧ c.longitude = s.current_longitude := by
  intro n
  induction n with
  | zero =>
    intro s c rest h
    simp [rapRunN] at h
  | succ n ih =>
    intro s c rest h
    rw [rapRunN_succ] at h
    rcases hnext : rapNext s with ⟨it, s1⟩
    rw [hnext] at h
    cases it with
    | none => simp at h
    | some it =>
      cases it with
      | ok cv =>
        simp only [okCells_cons_ok, List.cons.injEq] at h
        obtain ⟨hc, -⟩ := h
        obtain ⟨e1, e2, -⟩ := rapNext_ok_cell s cv (by rw [hnext])
        rw [← hc]
        exact ⟨e1, e2⟩
      | err e =>
        simp only [okCells_cons_err] at h
        obtain ⟨e1, e2, -⟩ := rapNext_not_ok_geo s (by rw [hnext]; intro cx; simp)
        have hs1 : s1 = (rapNext s).2 := by rw [hnext]
        obtain ⟨f1, f2⟩ := ih s1 c rest h
        rw [hs1] at f1 f2
        exact ⟨f1.trans e1, f2.trans e2⟩
      | panicked =>
        simp only [okCells_cons_panicked] at h
        obtain ⟨e1, e2, -⟩ := rapNext_not_ok_geo s (by rw [hnext]; intro cx; simp)
        have hs1 : s1 = (rapNext s).2 := by rw [hnext]
        obtain ⟨f1, f2⟩ := ih s1 c rest h
        rw [hs1] at f1 f2
        exact ⟨f1.trans e1, f2.trans e2⟩

/-- Row-major trace: starting at cell position `k`, a run whose cell count
keeps the total within the grid emits its `i`-th cell at the exact row-major
coordinates of cell `k + i`, and leaves the position at cell
`k + okCount`. -/
theorem geo_trace (lat0 lon0 H W h v : Nat)
    (hh : 1 ≤ h) (hh16 : h ≤ 65535) (hlat : v * H ≤ lat0) (hlat32 : lat0 < U32)
    (hlon : lon0 + h * W < U32) :
    ∀ (n : Nat) (s : RapValueIterator) (k : Nat),
      s.min_longitude = lon0 → s.number_of_h_grids = h → s.grid_height = H →
      s.grid_width = W →
      s.current_latitude = lat0 - k / h * H → s.current_longitude = lon0 + k % h * W →
      s.h_moved_times = k % h →
      k + okCount (rapRunN n s).1 ≤ h * v →
      ((okCells (rapRunN n s).1).map (fun c => (c.latitude, c.longitude)) =
        (List.range (okCount (rapRunN n s).1)).map
          (fun i => (lat0 - (k + i) / h * H, lon0 + (k + i) % h * W))) ∧
      (rapRunN n s).2.current_latitude =
        lat0 - (k + okCount (rapRunN n s).1) / h * H ∧
      (rapRunN n s).2.current_longitude =
        lon0 + (k + okCount (rapRunN n s).1) % h * W ∧
      (rapRunN n s).2.h_moved_times = (k + okCount (rapRunN n s).1) % h := by
  intro n
  induction n with
  | zero =>
    intro s k h1 h2 h3 h4 h5 h6 h7 hbound
    simp [rapRunN, okCells, okCount, h5, h6, h7]
  | succ n ih =>
    intro s k h1 h2 h3 h4 h5 h6 h7 hbound
    rcases hnext : rapNext s with ⟨it, s1⟩
    have hs1 : s1 = (rapNext s).2 := by rw [hnext]
    obtain ⟨c1, c2, c3, c4⟩ := rapNext_config s
    rw [rapRunN_succ, hnext] at hbound ⊢
    cases it with
    | none =>
      have hstate : (rapNext s).2 = s := rapNext_none_state s (by rw [hnext])
      rw [hs1, hstate]
      simp [okCells, okCount, h5, h6, h7]
    | some it =>
      cases it with
      | ok cv =>
        simp only [okCells_cons_ok, List.length_cons, okCount] at hbound ⊢
        obtain ⟨e1, e2, e3⟩ := rapNext_ok_cell s cv (by rw [hnext])
        rw [hs1] at hbound ⊢
        rw [h1, h2, h3, h4, h5, h6, h7] at e3
        have hk1 : k + 1 ≤ h * v := by omega
        rw [stepCoords_formula lat0 lon0 H W h v k hh hh16 hlat hlat32 hlon hk1] at e3
        rw [Prod.mk.injEq, Prod.mk.injEq] at e3
        obtain ⟨f1, f2, f3⟩ := e3
        have hb2 : (k + 1) + okCount (rapRunN n (rapNext s).2).1 ≤ h * v := by
          simp only [okCount]
          omega
        obtain ⟨m1, m2, m3, m4⟩ := ih (rapNext s).2 (k + 1)
          (c1.trans h1) (c2.trans h2) (c3.trans h3) (c4.trans h4) f1 f2 f3 hb2
        simp only [okCount] at m1 m2 m3 m4
        refine ⟨?_, ?_, ?_, ?_⟩
        · simp only [List.map_cons, m1, List.range_succ_eq_map, List.map_map]
          rw [e1, e2, h5, h6]
          refine List.cons_eq_cons.mpr ⟨by simp, ?_⟩
          apply List.map_congr_left
          intro i hi
          simp only [Function.comp_apply]
          rw [show k + (i + 1) = k + 1 + i from by omega]
        · rw [m2]
          rw [show k + ((okCells (rapRunN n (rapNext s).2).1).length + 1) =
            k + 1 + (okCells (rapRunN n (rapNext s).2).1).length from by omega]
        · rw [m3]
          rw [show k + ((okCells (rapRunN n (rapNext s).2).1).length + 1) =
            k + 1 + (okCells (rapRunN n (rapNext s).2).1).length from by omega]
        · rw [m4]
          rw [show k + ((okCells (rapRunN n (rapNext s).2).1).length + 1) =
            k + 1 + (okCells (rapRunN n (rapNext s).2).1).length from by omega]
      | err e =>
        simp only [okCells_cons_err] at hbound ⊢
        obtain ⟨e1, e2, e3⟩ := rapNext_not_ok_geo s (by rw [hnext]; intro cx; simp)
        rw [hs1] at hbound ⊢
        rw [h5] at e1
        rw [h6] at e2
        rw [h7] at e3
        exact ih (rapNext s).2 k (c1.trans h1) (c2.trans h2) (c3.trans h3) (c4.trans h4)
          e1 e2 e3 hbound
      | panicked =>
        simp only [okCells_cons_panicked] at hbound ⊢
        obtain ⟨e1, e2, e3⟩ := rapNext_not_ok_geo s (by rw [hnext]; intro cx; simp)
        rw [hs1] at hbound ⊢
        rw [h5] at e1
        rw [h6] at e2
        rw [h7] at e3
        exact ih (rapNext s).2 k (c1.trans h1) (c2.trans h2) (c3.trans h3) (c4.trans h4)
          e1 e2 e3 hbound

/-- Row/column of the last cell of a full `h × v` grid. -/
theorem last_cell_rowcol (h v : Nat) (hh : 1 ≤ h) (hv : 1 ≤ v) :
    (h * v - 1) / h = v - 1 ∧ (h * v - 1) % h = h - 1 := by
  have hsub : h * (v - 1) = h * v - h := by
    cases v with
    | zero => omega
    | succ v2 => simp [Nat.mul_succ]
  have hle : h ≤ h * v := by
    calc h = h * 1 := (Nat.mul_one h).symm
      _ ≤ h * v := Nat.mul_le_mul_left h hv
  have hk1 : h * v - 1 = h - 1 + h * (v - 1) := by omega
  constructor
  · rw [hk1, Nat.add_mul_div_left _ _ hh, Nat.div_eq_of_lt (by omega), Nat.zero_add]
  · rw [hk1, Nat.add_mul_mod_self_left, Nat.mod_eq_of_lt (by omega)]

/-- C7: from a fresh session, the first yielded cell's fixed-point
coordinates are `(startLatitude, startLongitude)`; cells advance in
row-major order — the `i`-th yielded cell sits at
`(startLatitude − (i/h)·cellHeight, startLongitude + (i mod h)·cellWidth)` —
and when exactly `h·v` cells are yielded the last one sits at
`(startLatitude − (v−1)·cellHeight, startLongitude + (h−1)·cellWidth)`.
Stated under the `u32`/`u16` ranges of the parsed fields and the no-overflow
preconditions of the fixed-point arithmetic (see C10). -/
theorem C7_row_major (dataL : List Nat) (cdb lat0 lon0 h H W v : Nat)
    (vals : List Nat) (lrs : List LevelRepetition) (s0 : RapValueIterator)
    (hs0 : s0 = RapValueIterator.new dataL cdb lat0 lon0 h H W vals lrs)
    (hh : 1 ≤ h) (hv : 1 ≤ v) (hh16 : h ≤ 65535) (hlat : v * H ≤ lat0)
    (hlat32 : lat0 < U32) (hlon : lon0 + h * W < U32) (n : Nat) :
    (∀ c rest, okCells (rapRunN n s0).1 = c :: rest →
      c.latitude = lat0 ∧ c.longitude = lon0) ∧
    (okCount (rapRunN n s0).1 ≤ h * v →
      (okCells (rapRunN n s0).1).map (fun c => (c.latitude, c.longitude)) =
        (List.range (okCount (rapRunN n s0).1)).map
          (fun i => (lat0 - i / h * H, lon0 + i % h * W))) ∧
    (okCount (rapRunN n s0).1 = h * v →
      ((okCells (rapRunN n s0).1).map (fun c => (c.latitude, c.longitude)))[h * v - 1]? =
        some (lat0 - (v - 1) * H, lon0 + (h - 1) * W)) := by
  have hmap : okCount (rapRunN n s0).1 ≤ h * v →
      (okCells (rapRunN n s0).1).map (fun c => (c.latitude, c.longitude)) =
        (List.range (okCount (rapRunN n s0).1)).map
          (fun i => (lat0 - i / h * H, lon0 + i % h * W)) := by
    intro hcnt
    have := (geo_trace lat0 lon0 H W h v hh hh16 hlat hlat32 hlon n s0 0
      (by rw [hs0]; rfl) (by rw [hs0]; rfl) (by rw [hs0]; rfl) (by rw [hs0]; rfl)
      (by rw [hs0]; simp [RapValueIterator.new])
      (by rw [hs0]; simp [RapValueIterator.new])
      (by rw [hs0]; simp [RapValueIterator.new])
      (by omega)).1
    simpa using this
  refine ⟨?_, hmap, ?_⟩
  · intro c rest hcr
    obtain ⟨e1, e2⟩ := first_cell_coords n s0 c rest hcr
    rw [hs0] at e1 e2
    exact ⟨e1, e2⟩
  · intro hfull
    have hhv : 1 ≤ h * v := by
      calc 1 = 1 * 1 := rfl
        _ ≤ h * v := Nat.mul_le_mul hh hv
    rw [hmap (by omega), hfull]
    rw [List.getElem?_map, List.getElem?_range (by omega : h * v - 1 < h * v)]
    obtain ⟨d1, d2⟩ := last_cell_rowcol h v hh hv
    simp only [Option.map_some', d1, d2]

/-- C10: under the preconditions `startLatitude ≥ v·cellHeight` and
`startLongitude + h·cellWidth < 2^32` (with the parsed fields in their
`u32`/`u16` ranges), a session that stays within the `h·v` cells of the grid
keeps exact coordinates: after any number of pulls yielding `c` cells the
latitude is the exact integer `startLatitude − (c/h)·cellHeight` (the
subtracted total never exceeds `startLatitude`, so no row-wrap subtraction —
including the one after the final row — underflows) and the longitude is the
exact `startLongitude + (c mod h)·cellWidth`, strictly below `2^32`.
Outside the preconditions the updates wrap modulo `2^32` by the definition
of `u32add`/`u32sub`. -/
theorem C10_no_overflow (dataL : List Nat) (cdb lat0 lon0 h H W v : Nat)
    (vals : List Nat) (lrs : List LevelRepetition) (s0 : RapValueIterator)
    (hs0 : s0 = RapValueIterator.new dataL cdb lat0 lon0 h H W vals lrs)
    (hh : 1 ≤ h) (hh16 : h ≤ 65535) (hlat : v * H ≤ lat0) (hlat32 : lat0 < U32)
    (hlon : lon0 + h * W < U32) (n : Nat)
    (hcount : okCount (rapRunN n s0).1 ≤ h * v) :
    okCount (rapRunN n s0).1 / h * H ≤ lat0 ∧
    (rapRunN n s0).2.current_latitude = lat0 - okCount (rapRunN n s0).1 / h * H ∧
    (rapRunN n s0).2.current_longitude = lon0 + okCount (rapRunN n s0).1 % h * W ∧
    lon0 + okCount (rapRunN n s0).1 % h * W < U32 := by
  obtain ⟨-, m2, m3, -⟩ := geo_trace lat0 lon0 H W h v hh hh16 hlat hlat32 hlon n s0 0
    (by rw [hs0]; rfl) (by rw [hs0]; rfl) (by rw [hs0]; rfl) (by rw [hs0]; rfl)
    (by rw [hs0]; simp [RapValueIterator.new])
    (by rw [hs0]; simp [RapValueIterator.new])
    (by rw [hs0]; simp [RapValueIterator.new])
    (by omega)
  simp only [Nat.zero_add] at m2 m3
  have hdivle : okCount (rapRunN n s0).1 / h ≤ v := by
    calc okCount (rapRunN n s0).1 / h ≤ h * v / h := Nat.div_le_div_right hcount
      _ = v := Nat.mul_div_cancel_left v hh
  have hlatle : okCount (rapRunN n s0).1 / h * H ≤ lat0 := by
    calc okCount (rapRunN n s0).1 / h * H ≤ v * H := Nat.mul_le_mul_right H hdivle
      _ ≤ lat0 := hlat
  have hmodlt : okCount (rapRunN n s0).1 % h < h := Nat.mod_lt _ hh
  have hlonlt : lon0 + okCount (rapRunN n s0).1 % h * W < U32 := by
    have : okCount (rapRunN n s0).1 % h * W ≤ h * W :=
      Nat.mul_le_mul_right W (by omega)
    omega
  exact ⟨hlatle, m2, m3, hlonlt⟩

/-- A fresh 2×2 session whose two-byte stream encodes exactly four cells
(one explicit-repeat token with repeat count 4). -/
def c7State : RapValueIterator :=
  RapValueIterator.new [0xC2, 0x02] 2 20 30 2 4 3 [0, 7, 15] []

/-- Witness for C7 at the concrete 2×2 session. -/
theorem C7_row_major_witness :
    (∀ c rest, okCells (rapRunN 5 c7State).1 = c :: rest →
      c.latitude = 20 ∧ c.longitude = 30) ∧
    (okCount (rapRunN 5 c7State).1 ≤ 2 * 2 →
      (okCells (rapRunN 5 c7State).1).map (fun c => (c.latitude, c.longitude)) =
        (List.range (okCount (rapRunN 5 c7State).1)).map
          (fun i => (20 - i / 2 * 4, 30 + i % 2 * 3))) ∧
    (okCount (rapRunN 5 c7State).1 = 2 * 2 →
      ((okCells (rapRunN 5 c7State).1).map (fun c => (c.latitude, c.longitude)))[2 * 2 - 1]? =
        some (20 - (2 - 1) * 4, 30 + (2 - 1) * 3)) := by
  exact C7_row_major [0xC2, 0x02] 2 20 30 2 4 3 2 [0, 7, 15] [] c7State rfl
    (by decide) (by decide) (by decide) (by decide) (by decide) (by decide) 5

/-- Witness for C10 at the concrete 2×2 session (the full grid is emitted,
so the final latitude is exactly `20 − 2·4` with no wrap). -/
theorem C10_no_overflow_witness :
    okCount (rapRunN 5 c7State).1 / 2 * 4 ≤ 20 ∧
    (rapRunN 5 c7State).2.current_latitude = 20 - okCount (rapRunN 5 c7State).1 / 2 * 4 ∧
    (rapRunN 5 c7State).2.current_longitude = 30 + okCount (rapRunN 5 c7State).1 % 2 * 3 ∧
    30 + okCount (rapRunN 5 c7State).1 % 2 * 3 < U32 := by
  exact C10_no_overflow [0xC2, 0x02] 2 20 30 2 4 3 2 [0, 7, 15] [] c7State rfl
    (by decide) (by decide) (by decide) (by decide) (by decide) 5 (by decide)

/-! ## C8 / C9: header-parsing failures -/

theorem readExact_ok_inv (r : ByteReader) (n : Nat) (buf : List Nat) (r2 : ByteReader)
    (h : readExact r n = .ok (buf, r2)) :
    r.pos + n ≤ r.file.length ∧ buf = (r.file.drop r.pos).take n ∧
    r2 = ⟨r.file, r.pos + n⟩ := by
  unfold readExact at h
  split at h
  · rename_i hle
    simp only [Except.ok.injEq, Prod.mk.injEq] at h
    exact ⟨hle, h.1.symm, h.2.symm⟩
  · simp at h

theorem read_str_ok_inv (r : ByteReader) (n : Nat) (s : List Nat) (r2 : ByteReader)
    (h : read_str r n = .ok (s, r2)) : r2 = ⟨r.file, r.pos + n⟩ := by
  unfold read_str at h
  cases hre : readExact r n with
  | error e => rw [hre] at h; simp [Bind.bind, Except.bind] at h
  | ok p =>
    rw [hre] at h
    obtain ⟨buf, r1⟩ := p
    simp only [Bind.bind, Except.bind] at h
    split at h
    · simp only [Except.ok.injEq, Prod.mk.injEq] at h
      obtain ⟨-, h2⟩ := h
      rw [← h2]
      exact (readExact_ok_inv r n buf r1 hre).2.2
    · simp at h

/-- A successful comment-part parse always leaves the reader 80 bytes past
its starting position. -/
theorem read_comment_part_ok_reader (r : ByteReader) (cp : CommentPart) (r2 : ByteReader)
    (h : read_comment_part r = .ok (cp, r2)) : r2 = ⟨r.file, r.pos + 80⟩ := by
  unfold read_comment_part at h
  cases h1 : read_str r 6 with
  | error e => rw [h1] at h; simp [Bind.bind, Except.bind] at h
  | ok p1 =>
    rw [h1] at h
    obtain ⟨s1, r1⟩ := p1
    have hr1 := read_str_ok_inv _ _ _ _ h1
    subst hr1
    simp only [Bind.bind, Except.bind] at h
    cases h2 : read_str ⟨r.file, r.pos + 6⟩ 5 with
    | error e => rw [h2] at h; simp at h
    | ok p2 =>
      rw [h2] at h
      obtain ⟨s2, r2x⟩ := p2
      have hr2 := read_str_ok_inv _ _ _ _ h2
      subst hr2
      dsimp only at h
      cases h3 : read_str ⟨r.file, r.pos + 6 + 5⟩ 66 with
      | error e => rw [h3] at h; simp at h
      | ok p3 =>
        rw [h3] at h
        obtain ⟨s3, r3x⟩ := p3
        have hr3 := read_str_ok_inv _ _ _ _ h3
        subst hr3
        dsimp only at h
        cases h4 : readExact ⟨r.file, r.pos + 6 + 5 + 66⟩ 3 with
        | error e => rw [h4] at h; simp at h
        | ok p4 =>
          rw [h4] at h
          obtain ⟨bytes, r4x⟩ := p4
          have hr4 := (readExact_ok_inv _ _ _ _ h4).2.2
          subst hr4
          dsimp only at h
          split at h
          · simp [throw, throwThe, MonadExceptOf.throw] at h
          · simp only [pure, Except.pure, Except.ok.injEq, Prod.mk.injEq] at h
            obtain ⟨-, h5⟩ := h
            rw [← h5]

/-- C8: a file whose comment trailer (bytes 77–79) differs from
`0x0D 0x0A 0x00` fails to open: the comment part itself reports a fatal
error (so no data-index entry is ever parsed) and `RapReader::new`
propagates exactly that error with no partial document. -/
theorem C8_bad_trailer (file : List Nat)
    (htr : (file.drop 77).take 3 ≠ [0x0D, 0x0A, 0x00]) :
    ∃ e, read_comment_part ⟨file, 0⟩ = .error e ∧ RapReader.new file = .error e := by
  have hcp : ∃ e, read_comment_part ⟨file, 0⟩ = .error e := by
    unfold read_comment_part
    cases h1 : read_str ⟨file, 0⟩ 6 with
    | error e => exact ⟨e, by simp [Bind.bind, Except.bind, h1]⟩
    | ok p1 =>
      obtain ⟨s1, r1⟩ := p1
      have hr1 : r1 = ⟨file, 6⟩ := by
        have := read_str_ok_inv _ _ _ _ h1
        simpa using this
      subst hr1
      cases h2 : read_str ⟨file, 6⟩ 5 with
      | error e => exact ⟨e, by simp [Bind.bind, Except.bind, h1, h2]⟩
      | ok p2 =>
        obtain ⟨s2, r2⟩ := p2
        have hr2 : r2 = ⟨file, 11⟩ := by
          have := read_str_ok_inv _ _ _ _ h2
          simpa using this
        subst hr2
        cases h3 : read_str ⟨file, 11⟩ 66 with
        | error e => exact ⟨e, by simp [Bind.bind, Except.bind, h1, h2, h3]⟩
        | ok p3 =>
          obtain ⟨s3, r3⟩ := p3
          have hr3 : r3 = ⟨file, 77⟩ := by
            have := read_str_ok_inv _ _ _ _ h3
            simpa using this
          subst hr3
          cases h4 : readExact ⟨file, 77⟩ 3 with
          | error e => exact ⟨e, by simp [Bind.bind, Except.bind, h1, h2, h3, h4]⟩
          | ok p4 =>
            obtain ⟨bytes, r4⟩ := p4
            obtain ⟨-, hbytes, -⟩ := readExact_ok_inv _ _ _ _ h4
            have hne : bytes ≠ [0x0D, 0x0A, 0x00] := by
              rw [hbytes]
              simpa using htr
            refine ⟨.Unexpected "the comment trailer is not 0x0d 0x0a 0x00", ?_⟩
            simp [Bind.bind, Except.bind, h1, h2, h3, h4, hne, throw, throwThe,
              MonadExceptOf.throw]
  obtain ⟨e, he⟩ := hcp
  refine ⟨e, he, ?_⟩
  unfold RapReader.new
  simp [Bind.bind, Except.bind, he]

/-- C9: once the comment part has parsed, a data-index entry count that is
neither 24 nor 48 makes the data-index stage itself fail with
`ObservationIntervalUnsupported` carrying the offending count, and
`RapReader::new` propagates exactly that error — the grid-definition and
compression stages are never reached. -/
theorem C9_bad_entry_count (file : List Nat) (cp : CommentPart) (r1 : ByteReader)
    (hcp : read_comment_part ⟨file, 0⟩ = .ok (cp, r1)) (c : Nat)
    (hlen : 84 ≤ file.length)
    (hc : leValue ((file.drop 80).take 4) = c) (h24 : c ≠ 24) (h48 : c ≠ 48) :
    read_data_index_part r1 = .error (.ObservationIntervalUnsupported c) ∧
    RapReader.new file = .error (.ObservationIntervalUnsupported c) := by
  have hr1 : r1 = ⟨file, 80⟩ := by
    have := read_comment_part_ok_reader _ _ _ hcp
    simpa using this
  subst hr1
  have hu32 : read_u32 ⟨file, 80⟩ = .ok (c, ⟨file, 84⟩) := by
    unfold read_u32 readNumLE readExact
    rw [if_pos (by simpa using hlen)]
    simp [Bind.bind, Except.bind, hc]
  have hidx : read_data_index_part ⟨file, 80⟩ =
      .error (.ObservationIntervalUnsupported c) := by
    unfold read_data_index_part
    simp [Bind.bind, Except.bind, hu32, ObservationTimes.tryFrom, h24, h48]
  refine ⟨hidx, ?_⟩
  unfold RapReader.new
  simp [Bind.bind, Except.bind, hcp, hidx]

/-- A file with three space-filled comment strings and a corrupted trailer. -/
def c8File : List Nat := List.replicate 77 0x20 ++ [1, 2, 3]

/-- Witness for C8 on the corrupted-trailer file. -/
theorem C8_bad_trailer_witness :
    ∃ e, read_comment_part ⟨c8File, 0⟩ = .error e ∧ RapReader.new c8File = .error e := by
  exact C8_bad_trailer c8File (by decide)

/-- A file with a valid comment block followed by entry count 25. -/
def c9File : List Nat :=
  List.replicate 77 0x20 ++ [0x0D, 0x0A, 0x00] ++ [25, 0, 0, 0]

/-- Witness for C9 on the count-25 file. -/
theorem C9_bad_entry_count_witness :
    read_data_index_part ⟨c9File, 80⟩ = .error (.ObservationIntervalUnsupported 25) ∧
    RapReader.new c9File = .error (.ObservationIntervalUnsupported 25) := by
  exact C9_bad_entry_count c9File ⟨[], [], []⟩ ⟨c9File, 80⟩ (by rfl) 25 (by decide)
    (by decide) (by decide) (by decide)

end JmaRap
